import Mathlib

/-!
# Guest memory set-up and boot image placement of `arch/arm/kvm.c`

A shallow embedding of `kvm__init_ram`, `kvm__arch_delete_ram`, `kvm__arch_init`
and `kvm__arch_load_kernel_image`, followed by theorems about them.

Conventions of the embedding

* Host pointers, `unsigned long` and `u64` values are natural numbers below `2 ^ 64`
  (an LP64 host); every C addition and subtraction on them is taken modulo `2 ^ 64`
  (`wadd`, `wsub`).
* `die` and `die_perror` end the process: a run ends in `Outcome.die` and carries
  the `struct kvm` as it was at that moment.
* Calls into the host (mapping, advice, registration, reads) are recorded in a trace,
  oldest call first.  `pr_info` only prints and is left out.
* Constants and function-like macros that `kvm.c` takes from headers outside this
  file are fields of `ArchParams`.
-/

namespace KvmArm

/-! ## Machine arithmetic -/

/-- Addition of 64-bit words (also pointer plus offset). -/
def wadd (a b : Nat) : Nat := (a + b) % 2 ^ 64

/-- Subtraction of 64-bit words (also pointer minus offset and pointer difference). -/
def wsub (a b : Nat) : Nat := (a + (2 ^ 64 - b % 2 ^ 64)) % 2 ^ 64

/-- The constant `SZ_2M` of `linux/sizes.h`. -/
def SZ_2M : Nat := 0x00200000

/-- The constant `SZ_256M` of `linux/sizes.h`. -/
def SZ_256M : Nat := 0x10000000

/-- The constant `ENOMEM` of `errno.h`. -/
def ENOMEM : Nat := 12

/-- The value `MAP_FAILED`, that is `(void *) -1`. -/
def MAP_FAILED : Nat := 2 ^ 64 - 1

/-- Line 93: `#define FDT_ALIGN SZ_2M`. -/
def FDT_ALIGN : Nat := SZ_2M

/-- Line 94: `#define INITRD_ALIGN 4`. -/
def INITRD_ALIGN : Nat := 4

/-- Modelled from the spec: the macro `ALIGN` of `linux/kernel.h` is not part of
`kvm.c`.  Section 4.2 step 4 has it round an address up to the alignment boundary,
and `kvm__arch_init` over-allocates by `SZ_2M` for that reason.  It is written here
as the kernel header writes it, `(x + (a - 1)) & ~(a - 1)`, on 64-bit words. -/
def ALIGN (x a : Nat) : Nat :=
  ((x + (a - 1)) % 2 ^ 64) &&& (2 ^ 64 - 1 - (a - 1))

/-! ## Data model -/

/-- Values that `kvm.c` reads from headers outside the file: `ARM_MEMORY_AREA`,
`ARM_MAX_MEMORY(kvm)`, `ARM_KERN_OFFSET(kvm)` and `FDT_MAX_SIZE`. -/
structure ArchParams where
  ARM_MEMORY_AREA : Nat
  ARM_MAX_MEMORY : Nat
  ARM_KERN_OFFSET : Nat
  FDT_MAX_SIZE : Nat
  deriving DecidableEq, Repr

/-- The fields of `kvm->arch` that `kvm.c` touches. -/
structure kvm_arch where
  ram_alloc_size : Nat
  ram_alloc_start : Nat
  memory_guest_start : Nat
  kern_guest_start : Nat
  dtb_guest_start : Nat
  initrd_guest_start : Nat
  initrd_size : Nat
  deriving DecidableEq, Repr

/-- The fields of `struct kvm` that `kvm.c` touches. -/
structure kvm where
  ram_size : Nat
  ram_start : Nat
  arch : kvm_arch
  deriving DecidableEq, Repr

/-- The two descriptors handed to `kvm__arch_load_kernel_image`. -/
inductive Fd where
  | fd_kernel
  | fd_initrd
  deriving DecidableEq, Repr

/-- The `advice` argument of the two `madvise` calls. -/
inductive Advice where
  | MADV_MERGEABLE
  | MADV_HUGEPAGE
  deriving DecidableEq, Repr

/-- A call into the host or into another module, with its arguments. -/
inductive Event where
  | kvm__register_mem (phys_start phys_size host_mem : Nat)
  | munmap (addr len : Nat)
  | mmap_anon_or_hugetlbfs (size : Nat)
  | madvise (addr len : Nat) (advice : Advice)
  | gic__create
  | read_file (fd : Fd) (buf max_size : Nat)
  | fstat (fd : Fd)
  deriving DecidableEq, Repr

/-- The `die` and `die_perror` call sites of `kvm.c`, named by their message. -/
inductive Fatal where
  /-- Message "Failed to register %lld bytes of memory at physical address 0x%llx [err %d]" -/
  | failed_to_register
  /-- Message "Failed to map %lld bytes for guest memory (%d)" -/
  | failed_to_map
  /-- Message "Failed to create virtual GIC" -/
  | failed_to_create_gic
  /-- Message "kernel image too big to contain in guest memory." -/
  | kernel_too_big
  /-- Call `die_perror("kernel read")`. -/
  | perror_kernel_read
  /-- Message "fdt overlaps with kernel image." -/
  | fdt_overlaps
  /-- Call `die_perror("fstat")`. -/
  | perror_fstat
  /-- Message "initrd overlaps with kernel image." -/
  | initrd_overlaps
  /-- Message "initrd too big to contain in guest memory." -/
  | initrd_too_big
  /-- Call `die_perror("initrd read")`. -/
  | perror_initrd_read
  deriving DecidableEq, Repr

/-- How a call ends: it returns a value, or the process is terminated. -/
inductive Outcome (α : Type) where
  | returned (v : α)
  | die (why : Fatal)
  deriving DecidableEq, Repr

/-- A finished run: the `struct kvm` at its end, the calls it made, and how it ended. -/
structure Run (α : Type) where
  vm : kvm
  trace : List Event
  out : Outcome α
  deriving DecidableEq, Repr

/-- What the host knows of an open file: the number of bytes it holds, the `errno`
of a failing read when reads on it fail, and the `st_size` that `fstat` reports
(`none` when `fstat` itself fails).  File lengths are `off_t` values, below `2 ^ 63`,
so a length is also a value of `ssize_t`. -/
structure File where
  size : Nat
  read_error : Option Nat
  st_size : Option Nat
  deriving DecidableEq, Repr

/-- What the host answers to `kvm__arch_init`: the pointer returned by
`mmap_anon_or_hugetlbfs` for a given size and the return value of `gic__create`. -/
structure InitHost where
  mmap_anon_or_hugetlbfs : Nat → Nat
  gic__create : Int

/-! ## Helpers of other modules -/

/-- Modelled from the spec: `host_to_guest_flat` is defined outside `kvm.c`.
Section 4.3: `host_to_guest(host_addr) = guest_phys_base + (host_addr - host_region_start)`,
with `guest_phys_base` the base recorded in `arch.memory_guest_start`.  The spec leaves
the value open outside the mapped range; here the same expression is evaluated on
64-bit words without a range check. -/
def host_to_guest_flat (vm : kvm) (ptr : Nat) : Nat :=
  wadd vm.arch.memory_guest_start (wsub ptr vm.ram_start)

/-- Modelled from the spec: `guest_flat_to_host` is defined outside `kvm.c`.
Section 4.3: `guest_to_host(guest_addr) = host_region_start + (guest_addr - guest_phys_base)`,
evaluated on 64-bit words without a range check. -/
def guest_flat_to_host (vm : kvm) (offset : Nat) : Nat :=
  wadd vm.ram_start (wsub offset vm.arch.memory_guest_start)

/-- Modelled from the spec: `read_file` is defined outside `kvm.c`.  Section 4.4
step 2 and section 7: the read copies the whole source when it does not exceed
`max_size` and returns its length; a longer source is the no-space failure
(`-1` with `errno = ENOMEM`); a failing read is `-1` with the `errno` of that failure.
The result is the pair of the return value and `errno`. -/
def read_file (f : File) (max_size : Nat) : Int × Nat :=
  match f.read_error with
  | some e => (-1, e)
  | none => if f.size ≤ max_size then ((f.size : Int), 0) else (-1, ENOMEM)

/-! ## The functions of `kvm.c` -/

/-- Lines 27-43. `err` is the return value of `kvm__register_mem`. -/
def kvm__init_ram (p : ArchParams) (err : Int) (vm : kvm) : Run Unit :=
  let phys_start := p.ARM_MEMORY_AREA
  let phys_size := vm.ram_size
  let host_mem := vm.ram_start
  let trace := [Event.kvm__register_mem phys_start phys_size host_mem]
  if err ≠ 0 then
    ⟨vm, trace, .die .failed_to_register⟩
  else
    ⟨{ vm with arch := { vm.arch with memory_guest_start := phys_start } }, trace,
      .returned ()⟩

/-- Lines 45-48. -/
def kvm__arch_delete_ram (vm : kvm) : Run Unit :=
  ⟨vm, [Event.munmap vm.arch.ram_alloc_start vm.arch.ram_alloc_size], .returned ()⟩

/-- Lines 62-91.  The three assignments of lines 70-73 are gathered in one update of
the `struct kvm`, made of the values they store. -/
def kvm__arch_init (p : ArchParams) (host : InitHost) (vm : kvm) (ram_size : Nat) :
    Run Unit :=
  let new_ram_size := min ram_size p.ARM_MAX_MEMORY
  let ram_alloc_size := wadd new_ram_size SZ_2M
  let ram_alloc_start := host.mmap_anon_or_hugetlbfs ram_alloc_size
  let vm : kvm :=
    { vm with
      ram_size := new_ram_size
      arch := { vm.arch with
        ram_alloc_size := ram_alloc_size
        ram_alloc_start := ram_alloc_start } }
  let trace := [Event.mmap_anon_or_hugetlbfs ram_alloc_size]
  if ram_alloc_start = MAP_FAILED then
    ⟨vm, trace, .die .failed_to_map⟩
  else
    let vm : kvm := { vm with ram_start := ALIGN ram_alloc_start SZ_2M }
    let trace := trace ++
      [Event.madvise ram_alloc_start ram_alloc_size .MADV_MERGEABLE,
       Event.madvise ram_alloc_start ram_alloc_size .MADV_HUGEPAGE,
       Event.gic__create]
    if host.gic__create ≠ 0 then
      ⟨vm, trace, .die .failed_to_create_gic⟩
    else
      ⟨vm, trace, .returned ()⟩

/-- Lines 95-172.  `fd_initrd = none` stands for the descriptor `-1`. -/
def kvm__arch_load_kernel_image (p : ArchParams) (vm : kvm) (fd_kernel : File)
    (fd_initrd : Option File) : Run Bool :=
  let limit := wsub (wadd vm.ram_start (min vm.ram_size SZ_256M)) 1
  let pos := wadd vm.ram_start p.ARM_KERN_OFFSET
  let vm := { vm with arch := { vm.arch with kern_guest_start := host_to_guest_flat vm pos } }
  let trace := [Event.read_file .fd_kernel pos (wsub limit pos)]
  let r := read_file fd_kernel (wsub limit pos)
  let file_size := r.1
  if file_size < 0 then
    if r.2 = ENOMEM then
      ⟨vm, trace, .die .kernel_too_big⟩
    else
      ⟨vm, trace, .die .perror_kernel_read⟩
  else
    let kernel_end := wadd pos file_size.toNat
    let pos := wsub limit (p.FDT_MAX_SIZE + FDT_ALIGN)
    let guest_addr := ALIGN (host_to_guest_flat vm pos) FDT_ALIGN
    let pos := guest_flat_to_host vm guest_addr
    if pos < kernel_end then
      ⟨vm, trace, .die .fdt_overlaps⟩
    else
      let vm := { vm with arch := { vm.arch with dtb_guest_start := guest_addr } }
      let limit := pos
      match fd_initrd with
      | some initrd =>
        let trace := trace ++ [Event.fstat .fd_initrd]
        match initrd.st_size with
        | none => ⟨vm, trace, .die .perror_fstat⟩
        | some st_size =>
          let pos := wsub pos (st_size + INITRD_ALIGN)
          let guest_addr := ALIGN (host_to_guest_flat vm pos) INITRD_ALIGN
          let pos := guest_flat_to_host vm guest_addr
          if pos < kernel_end then
            ⟨vm, trace, .die .initrd_overlaps⟩
          else
            let initrd_start := guest_addr
            let trace := trace ++ [Event.read_file .fd_initrd pos (wsub limit pos)]
            let r := read_file initrd (wsub limit pos)
            let file_size := r.1
            if file_size = -1 then
              if r.2 = ENOMEM then
                ⟨vm, trace, .die .initrd_too_big⟩
              else
                ⟨vm, trace, .die .perror_initrd_read⟩
            else
              ⟨{ vm with arch := { vm.arch with
                  initrd_guest_start := initrd_start
                  initrd_size := file_size.toNat } }, trace, .returned true⟩
      | none =>
        ⟨{ vm with arch := { vm.arch with initrd_size := 0 } }, trace, .returned true⟩

/-! ## Values of the locals of `kvm__arch_load_kernel_image` -/

/-- The local `limit` after line 106. -/
def lowmem_limit (vm : kvm) : Nat :=
  wsub (wadd vm.ram_start (min vm.ram_size SZ_256M)) 1

/-- The local `pos` after line 108: where the kernel is copied to. -/
def kernel_pos (p : ArchParams) (vm : kvm) : Nat :=
  wadd vm.ram_start p.ARM_KERN_OFFSET

/-- The bound `limit - pos` handed to the kernel read at line 110. -/
def kernel_max (p : ArchParams) (vm : kvm) : Nat :=
  wsub (lowmem_limit vm) (kernel_pos p vm)

/-- The local `kernel_end` after line 117, for a kernel of `file_size` bytes. -/
def kernel_end (p : ArchParams) (vm : kvm) (file_size : Nat) : Nat :=
  wadd (kernel_pos p vm) file_size

/-- The local `guest_addr` after line 128: the guest address of the device tree. -/
def fdt_guest_addr (p : ArchParams) (vm : kvm) : Nat :=
  ALIGN (host_to_guest_flat vm (wsub (lowmem_limit vm) (p.FDT_MAX_SIZE + FDT_ALIGN))) FDT_ALIGN

/-- The local `pos` after line 129: the host address of the device tree. -/
def fdt_pos (p : ArchParams) (vm : kvm) : Nat :=
  guest_flat_to_host vm (fdt_guest_addr p vm)

/-- The local `guest_addr` after line 148, for a ramdisk with the given `st_size`. -/
def initrd_guest_addr (p : ArchParams) (vm : kvm) (st_size : Nat) : Nat :=
  ALIGN (host_to_guest_flat vm (wsub (fdt_pos p vm) (st_size + INITRD_ALIGN))) INITRD_ALIGN

/-- The local `pos` after line 149: the host address of the ramdisk. -/
def initrd_pos (p : ArchParams) (vm : kvm) (st_size : Nat) : Nat :=
  guest_flat_to_host vm (initrd_guest_addr p vm st_size)

/-- The bound `limit - pos` handed to the ramdisk read at line 154. -/
def initrd_max (p : ArchParams) (vm : kvm) (st_size : Nat) : Nat :=
  wsub (fdt_pos p vm) (initrd_pos p vm st_size)

/-- The `struct kvm` after line 109. -/
def vm_after_kernel (p : ArchParams) (vm : kvm) : kvm :=
  { vm with arch := { vm.arch with
      kern_guest_start := host_to_guest_flat vm (kernel_pos p vm) } }

/-- The `struct kvm` after line 133. -/
def vm_after_fdt (p : ArchParams) (vm : kvm) : kvm :=
  { vm_after_kernel p vm with arch := { (vm_after_kernel p vm).arch with
      dtb_guest_start := fdt_guest_addr p vm } }

/-- The read of the kernel at line 110, as an entry of the trace. -/
def kernel_read_event (p : ArchParams) (vm : kvm) : Event :=
  Event.read_file .fd_kernel (kernel_pos p vm) (kernel_max p vm)

/-- The read of the ramdisk at line 154, as an entry of the trace. -/
def initrd_read_event (p : ArchParams) (vm : kvm) (st_size : Nat) : Event :=
  Event.read_file .fd_initrd (initrd_pos p vm st_size) (initrd_max p vm st_size)

/-! ## Values of the locals of `kvm__arch_init` -/

/-- The `struct kvm` after line 73 of `kvm__arch_init`. -/
def vm_after_mmap (p : ArchParams) (host : InitHost) (vm : kvm) (ram_size : Nat) : kvm :=
  { vm with
    ram_size := min ram_size p.ARM_MAX_MEMORY
    arch := { vm.arch with
      ram_alloc_size := wadd (min ram_size p.ARM_MAX_MEMORY) SZ_2M
      ram_alloc_start :=
        host.mmap_anon_or_hugetlbfs (wadd (min ram_size p.ARM_MAX_MEMORY) SZ_2M) } }

/-- The `struct kvm` after line 80 of `kvm__arch_init`. -/
def vm_after_align (p : ArchParams) (host : InitHost) (vm : kvm) (ram_size : Nat) : kvm :=
  { vm_after_mmap p host vm ram_size with
    ram_start :=
      ALIGN (host.mmap_anon_or_hugetlbfs (wadd (min ram_size p.ARM_MAX_MEMORY) SZ_2M)) SZ_2M }

/-- The calls of `kvm__arch_init` when the mapping succeeds. -/
def arch_init_trace (p : ArchParams) (host : InitHost) (ram_size : Nat) : List Event :=
  [Event.mmap_anon_or_hugetlbfs (wadd (min ram_size p.ARM_MAX_MEMORY) SZ_2M),
   Event.madvise (host.mmap_anon_or_hugetlbfs (wadd (min ram_size p.ARM_MAX_MEMORY) SZ_2M))
     (wadd (min ram_size p.ARM_MAX_MEMORY) SZ_2M) .MADV_MERGEABLE,
   Event.madvise (host.mmap_anon_or_hugetlbfs (wadd (min ram_size p.ARM_MAX_MEMORY) SZ_2M))
     (wadd (min ram_size p.ARM_MAX_MEMORY) SZ_2M) .MADV_HUGEPAGE,
   Event.gic__create]

/-! ## The paths through `kvm__arch_load_kernel_image` -/

/-- The nine ways through `kvm__arch_load_kernel_image`: the conditions under which each
is taken and the run it produces. -/
inductive LoadPath (p : ArchParams) (vm : kvm) (fk : File) (fi : Option File) :
    Run Bool → Prop where
  | kernel_read_error (e : Nat) (he : fk.read_error = some e) :
      LoadPath p vm fk fi
        ⟨vm_after_kernel p vm, [kernel_read_event p vm],
          .die (if e = ENOMEM then .kernel_too_big else .perror_kernel_read)⟩
  | kernel_too_big (he : fk.read_error = none) (hs : kernel_max p vm < fk.size) :
      LoadPath p vm fk fi
        ⟨vm_after_kernel p vm, [kernel_read_event p vm], .die .kernel_too_big⟩
  | fdt_overlaps (he : fk.read_error = none) (hs : fk.size ≤ kernel_max p vm)
      (hfdt : fdt_pos p vm < kernel_end p vm fk.size) :
      LoadPath p vm fk fi
        ⟨vm_after_kernel p vm, [kernel_read_event p vm], .die .fdt_overlaps⟩
  | without_initrd (he : fk.read_error = none) (hs : fk.size ≤ kernel_max p vm)
      (hfdt : kernel_end p vm fk.size ≤ fdt_pos p vm) (hfi : fi = none) :
      LoadPath p vm fk fi
        ⟨{ vm_after_fdt p vm with arch := { (vm_after_fdt p vm).arch with initrd_size := 0 } },
          [kernel_read_event p vm], .returned true⟩
  | fstat_fails (he : fk.read_error = none) (hs : fk.size ≤ kernel_max p vm)
      (hfdt : kernel_end p vm fk.size ≤ fdt_pos p vm) (initrd : File) (hfi : fi = some initrd)
      (hst : initrd.st_size = none) :
      LoadPath p vm fk fi
        ⟨vm_after_fdt p vm, [kernel_read_event p vm, Event.fstat .fd_initrd],
          .die .perror_fstat⟩
  | initrd_overlaps (he : fk.read_error = none) (hs : fk.size ≤ kernel_max p vm)
      (hfdt : kernel_end p vm fk.size ≤ fdt_pos p vm) (initrd : File) (hfi : fi = some initrd)
      (st_size : Nat) (hst : initrd.st_size = some st_size)
      (hrd : initrd_pos p vm st_size < kernel_end p vm fk.size) :
      LoadPath p vm fk fi
        ⟨vm_after_fdt p vm, [kernel_read_event p vm, Event.fstat .fd_initrd],
          .die .initrd_overlaps⟩
  | initrd_read_error (he : fk.read_error = none) (hs : fk.size ≤ kernel_max p vm)
      (hfdt : kernel_end p vm fk.size ≤ fdt_pos p vm) (initrd : File) (hfi : fi = some initrd)
      (st_size : Nat) (hst : initrd.st_size = some st_size)
      (hrd : kernel_end p vm fk.size ≤ initrd_pos p vm st_size)
      (e : Nat) (hie : initrd.read_error = some e) :
      LoadPath p vm fk fi
        ⟨vm_after_fdt p vm,
          [kernel_read_event p vm, Event.fstat .fd_initrd, initrd_read_event p vm st_size],
          .die (if e = ENOMEM then .initrd_too_big else .perror_initrd_read)⟩
  | initrd_too_big (he : fk.read_error = none) (hs : fk.size ≤ kernel_max p vm)
      (hfdt : kernel_end p vm fk.size ≤ fdt_pos p vm) (initrd : File) (hfi : fi = some initrd)
      (st_size : Nat) (hst : initrd.st_size = some st_size)
      (hrd : kernel_end p vm fk.size ≤ initrd_pos p vm st_size)
      (hie : initrd.read_error = none) (his : initrd_max p vm st_size < initrd.size) :
      LoadPath p vm fk fi
        ⟨vm_after_fdt p vm,
          [kernel_read_event p vm, Event.fstat .fd_initrd, initrd_read_event p vm st_size],
          .die .initrd_too_big⟩
  | with_initrd (he : fk.read_error = none) (hs : fk.size ≤ kernel_max p vm)
      (hfdt : kernel_end p vm fk.size ≤ fdt_pos p vm) (initrd : File) (hfi : fi = some initrd)
      (st_size : Nat) (hst : initrd.st_size = some st_size)
      (hrd : kernel_end p vm fk.size ≤ initrd_pos p vm st_size)
      (hie : initrd.read_error = none) (his : initrd.size ≤ initrd_max p vm st_size) :
      LoadPath p vm fk fi
        ⟨{ vm_after_fdt p vm with arch := { (vm_after_fdt p vm).arch with
            initrd_guest_start := initrd_guest_addr p vm st_size
            initrd_size := initrd.size } },
          [kernel_read_event p vm, Event.fstat .fd_initrd, initrd_read_event p vm st_size],
          .returned true⟩

/-! ## Sample inputs -/

/-- Header values of a 64-bit guest, used in the examples: RAM at 2 GiB, at most
`2 ^ 40 - 2 ^ 31` bytes of it, kernel offset `0x80000`, device tree of at most 64 KiB. -/
def sample_params : ArchParams :=
  { ARM_MEMORY_AREA := 0x80000000
    ARM_MAX_MEMORY := 0xFF80000000
    ARM_KERN_OFFSET := 0x80000
    FDT_MAX_SIZE := 0x10000 }

/-- A host whose mapping call returns `0x7f0000100000` and whose GIC creation succeeds. -/
def sample_host : InitHost :=
  { mmap_anon_or_hugetlbfs := fun _ => 0x7f0000100000
    gic__create := 0 }

/-- A `struct kvm` with every field zero. -/
def zero_vm : kvm :=
  { ram_size := 0
    ram_start := 0
    arch :=
      { ram_alloc_size := 0
        ram_alloc_start := 0
        memory_guest_start := 0
        kern_guest_start := 0
        dtb_guest_start := 0
        initrd_guest_start := 0
        initrd_size := 0 } }

/-- The `struct kvm` of a guest with `ram_size` bytes of RAM mapped at host address
`0x7f0000200000` and registered at guest address 2 GiB. -/
def sample_vm (ram_size : Nat) : kvm :=
  { ram_size := ram_size
    ram_start := 0x7f0000200000
    arch :=
      { ram_alloc_size := ram_size + 0x200000
        ram_alloc_start := 0x7f0000100000
        memory_guest_start := 0x80000000
        kern_guest_start := 0
        dtb_guest_start := 0
        initrd_guest_start := 0
        initrd_size := 0 } }

/-- The sample `struct kvm` of 256 MiB in which an earlier call has left a ramdisk address
and size. -/
def sample_vm_stale : kvm :=
  { sample_vm 0x10000000 with
    arch := { (sample_vm 0x10000000).arch with
      initrd_guest_start := 0x8FDFFC14
      initrd_size := 1001 } }

/-- The sample `struct kvm` of 256 MiB with its RAM mapped at another host address,
`0x7e0000400000`. -/
def sample_vm_moved : kvm :=
  { sample_vm 0x10000000 with
    ram_start := 0x7e0000400000
    arch := { (sample_vm 0x10000000).arch with ram_alloc_start := 0x7e0000300000 } }

/-- A file of `n` bytes on which every read fails with `errno = e`. -/
def sample_unreadable_file (n e : Nat) : File :=
  { size := n
    read_error := some e
    st_size := some n }

/-- A readable regular file of `n` bytes. -/
def sample_file (n : Nat) : File :=
  { size := n
    read_error := none
    st_size := some n }

/-! ## The outcomes of `read_file` -/

theorem read_file_ok (f : File) (m : Nat) (he : f.read_error = none) (hs : f.size ≤ m) :
    read_file f m = ((f.size : Int), 0) := by
  simp [read_file, he, hs]

theorem read_file_too_big (f : File) (m : Nat) (he : f.read_error = none) (hs : m < f.size) :
    read_file f m = (-1, ENOMEM) := by
  simp [read_file, he, Nat.not_le.mpr hs]

theorem read_file_error (f : File) (m e : Nat) (he : f.read_error = some e) :
    read_file f m = (-1, e) := by
  simp [read_file, he]

/-- The three ways a read can end. -/
theorem read_file_cases (f : File) (m : Nat) :
    (f.read_error = none ∧ f.size ≤ m ∧ read_file f m = ((f.size : Int), 0)) ∨
    (f.read_error = none ∧ m < f.size ∧ read_file f m = (-1, ENOMEM)) ∨
    (∃ e, f.read_error = some e ∧ read_file f m = (-1, e)) := by
  cases he : f.read_error with
  | some e => exact Or.inr (Or.inr ⟨e, rfl, read_file_error f m e he⟩)
  | none =>
    by_cases hs : f.size ≤ m
    · exact Or.inl ⟨rfl, hs, read_file_ok f m he hs⟩
    · exact Or.inr (Or.inl ⟨rfl, Nat.not_le.mp hs, read_file_too_big f m he (Nat.not_le.mp hs)⟩)

/-! ## Unfolding `kvm__arch_load_kernel_image` -/

/-- The function written with the named locals. -/
theorem load_unfold (p : ArchParams) (vm : kvm) (fd_kernel : File) (fd_initrd : Option File) :
    kvm__arch_load_kernel_image p vm fd_kernel fd_initrd =
      if (read_file fd_kernel (kernel_max p vm)).1 < 0 then
        if (read_file fd_kernel (kernel_max p vm)).2 = ENOMEM then
          ⟨vm_after_kernel p vm, [kernel_read_event p vm], .die .kernel_too_big⟩
        else
          ⟨vm_after_kernel p vm, [kernel_read_event p vm], .die .perror_kernel_read⟩
      else if fdt_pos p vm <
          kernel_end p vm (read_file fd_kernel (kernel_max p vm)).1.toNat then
        ⟨vm_after_kernel p vm, [kernel_read_event p vm], .die .fdt_overlaps⟩
      else
        match fd_initrd with
        | some initrd =>
          match initrd.st_size with
          | none =>
            ⟨vm_after_fdt p vm, [kernel_read_event p vm] ++ [Event.fstat .fd_initrd],
              .die .perror_fstat⟩
          | some st_size =>
            if initrd_pos p vm st_size <
                kernel_end p vm (read_file fd_kernel (kernel_max p vm)).1.toNat then
              ⟨vm_after_fdt p vm, [kernel_read_event p vm] ++ [Event.fstat .fd_initrd],
                .die .initrd_overlaps⟩
            else if (read_file initrd (initrd_max p vm st_size)).1 = -1 then
              if (read_file initrd (initrd_max p vm st_size)).2 = ENOMEM then
                ⟨vm_after_fdt p vm, [kernel_read_event p vm] ++ [Event.fstat .fd_initrd] ++
                  [initrd_read_event p vm st_size], .die .initrd_too_big⟩
              else
                ⟨vm_after_fdt p vm, [kernel_read_event p vm] ++ [Event.fstat .fd_initrd] ++
                  [initrd_read_event p vm st_size], .die .perror_initrd_read⟩
            else
              ⟨{ vm_after_fdt p vm with arch := { (vm_after_fdt p vm).arch with
                  initrd_guest_start := initrd_guest_addr p vm st_size
                  initrd_size := (read_file initrd (initrd_max p vm st_size)).1.toNat } },
                [kernel_read_event p vm] ++ [Event.fstat .fd_initrd] ++
                  [initrd_read_event p vm st_size], .returned true⟩
        | none =>
          ⟨{ vm_after_fdt p vm with arch := { (vm_after_fdt p vm).arch with
              initrd_size := 0 } }, [kernel_read_event p vm], .returned true⟩ := by
  rfl

/-- Path 1: the kernel does not fit under the read bound. -/
theorem load_kernel_too_big (p : ArchParams) (vm : kvm) (fk : File) (fi : Option File)
    (he : fk.read_error = none) (hs : kernel_max p vm < fk.size) :
    kvm__arch_load_kernel_image p vm fk fi =
      ⟨vm_after_kernel p vm, [kernel_read_event p vm], .die .kernel_too_big⟩ := by
  rw [load_unfold, read_file_too_big fk _ he hs]
  simp

/-- Path 2: the read of the kernel fails with `errno = e`. -/
theorem load_kernel_read_error (p : ArchParams) (vm : kvm) (fk : File) (fi : Option File)
    (e : Nat) (he : fk.read_error = some e) :
    kvm__arch_load_kernel_image p vm fk fi =
      ⟨vm_after_kernel p vm, [kernel_read_event p vm],
        .die (if e = ENOMEM then .kernel_too_big else .perror_kernel_read)⟩ := by
  rw [load_unfold, read_file_error fk _ e he]
  by_cases h : e = ENOMEM <;> simp [h]

/-- Path 3: the kernel is read and the device tree would start below its end. -/
theorem load_fdt_overlaps (p : ArchParams) (vm : kvm) (fk : File) (fi : Option File)
    (he : fk.read_error = none) (hs : fk.size ≤ kernel_max p vm)
    (hfdt : fdt_pos p vm < kernel_end p vm fk.size) :
    kvm__arch_load_kernel_image p vm fk fi =
      ⟨vm_after_kernel p vm, [kernel_read_event p vm], .die .fdt_overlaps⟩ := by
  rw [load_unfold, read_file_ok fk _ he hs]
  simp [hfdt]

/-- Path 4: kernel and device tree are placed and there is no ramdisk. -/
theorem load_without_initrd (p : ArchParams) (vm : kvm) (fk : File)
    (he : fk.read_error = none) (hs : fk.size ≤ kernel_max p vm)
    (hfdt : kernel_end p vm fk.size ≤ fdt_pos p vm) :
    kvm__arch_load_kernel_image p vm fk none =
      ⟨{ vm_after_fdt p vm with arch := { (vm_after_fdt p vm).arch with initrd_size := 0 } },
        [kernel_read_event p vm], .returned true⟩ := by
  rw [load_unfold, read_file_ok fk _ he hs]
  simp [Nat.not_lt.mpr hfdt]

/-- Path 5: `fstat` on the ramdisk fails. -/
theorem load_fstat_fails (p : ArchParams) (vm : kvm) (fk initrd : File)
    (he : fk.read_error = none) (hs : fk.size ≤ kernel_max p vm)
    (hfdt : kernel_end p vm fk.size ≤ fdt_pos p vm) (hst : initrd.st_size = none) :
    kvm__arch_load_kernel_image p vm fk (some initrd) =
      ⟨vm_after_fdt p vm, [kernel_read_event p vm, Event.fstat .fd_initrd],
        .die .perror_fstat⟩ := by
  rw [load_unfold, read_file_ok fk _ he hs]
  simp [Nat.not_lt.mpr hfdt, hst]

/-- Path 6: the ramdisk would start below the end of the kernel. -/
theorem load_initrd_overlaps (p : ArchParams) (vm : kvm) (fk initrd : File) (st_size : Nat)
    (he : fk.read_error = none) (hs : fk.size ≤ kernel_max p vm)
    (hfdt : kernel_end p vm fk.size ≤ fdt_pos p vm) (hst : initrd.st_size = some st_size)
    (hrd : initrd_pos p vm st_size < kernel_end p vm fk.size) :
    kvm__arch_load_kernel_image p vm fk (some initrd) =
      ⟨vm_after_fdt p vm, [kernel_read_event p vm, Event.fstat .fd_initrd],
        .die .initrd_overlaps⟩ := by
  rw [load_unfold, read_file_ok fk _ he hs]
  simp [Nat.not_lt.mpr hfdt, hst, hrd]

/-- Path 7: the ramdisk does not fit under its read bound. -/
theorem load_initrd_too_big (p : ArchParams) (vm : kvm) (fk initrd : File) (st_size : Nat)
    (he : fk.read_error = none) (hs : fk.size ≤ kernel_max p vm)
    (hfdt : kernel_end p vm fk.size ≤ fdt_pos p vm) (hst : initrd.st_size = some st_size)
    (hrd : kernel_end p vm fk.size ≤ initrd_pos p vm st_size)
    (hie : initrd.read_error = none) (his : initrd_max p vm st_size < initrd.size) :
    kvm__arch_load_kernel_image p vm fk (some initrd) =
      ⟨vm_after_fdt p vm,
        [kernel_read_event p vm, Event.fstat .fd_initrd, initrd_read_event p vm st_size],
        .die .initrd_too_big⟩ := by
  rw [load_unfold, read_file_ok fk _ he hs]
  simp [Nat.not_lt.mpr hfdt, hst, Nat.not_lt.mpr hrd, read_file_too_big initrd _ hie his]

/-- Path 8: the read of the ramdisk fails with `errno = e`. -/
theorem load_initrd_read_error (p : ArchParams) (vm : kvm) (fk initrd : File)
    (st_size e : Nat)
    (he : fk.read_error = none) (hs : fk.size ≤ kernel_max p vm)
    (hfdt : kernel_end p vm fk.size ≤ fdt_pos p vm) (hst : initrd.st_size = some st_size)
    (hrd : kernel_end p vm fk.size ≤ initrd_pos p vm st_size)
    (hie : initrd.read_error = some e) :
    kvm__arch_load_kernel_image p vm fk (some initrd) =
      ⟨vm_after_fdt p vm,
        [kernel_read_event p vm, Event.fstat .fd_initrd, initrd_read_event p vm st_size],
        .die (if e = ENOMEM then .initrd_too_big else .perror_initrd_read)⟩ := by
  rw [load_unfold, read_file_ok fk _ he hs]
  by_cases h : e = ENOMEM <;>
    simp [Nat.not_lt.mpr hfdt, hst, Nat.not_lt.mpr hrd, read_file_error initrd _ e hie, h]

/-- Path 9: kernel, device tree and ramdisk are all placed. -/
theorem load_with_initrd (p : ArchParams) (vm : kvm) (fk initrd : File) (st_size : Nat)
    (he : fk.read_error = none) (hs : fk.size ≤ kernel_max p vm)
    (hfdt : kernel_end p vm fk.size ≤ fdt_pos p vm) (hst : initrd.st_size = some st_size)
    (hrd : kernel_end p vm fk.size ≤ initrd_pos p vm st_size)
    (hie : initrd.read_error = none) (his : initrd.size ≤ initrd_max p vm st_size) :
    kvm__arch_load_kernel_image p vm fk (some initrd) =
      ⟨{ vm_after_fdt p vm with arch := { (vm_after_fdt p vm).arch with
          initrd_guest_start := initrd_guest_addr p vm st_size
          initrd_size := initrd.size } },
        [kernel_read_event p vm, Event.fstat .fd_initrd, initrd_read_event p vm st_size],
        .returned true⟩ := by
  rw [load_unfold, read_file_ok fk _ he hs]
  have hne : ¬ ((initrd.size : Int) = -1) := by omega
  simp [Nat.not_lt.mpr hfdt, hst, Nat.not_lt.mpr hrd, read_file_ok initrd _ hie his, hne]

/-- What a successful run went through: both reads succeeded under their bounds and
both placement checks passed; the recorded fields are the values of the locals. -/
theorem load_returned_inv (p : ArchParams) (vm : kvm) (fk : File) (fi : Option File) (b : Bool)
    (hok : (kvm__arch_load_kernel_image p vm fk fi).out = .returned b) :
    fk.read_error = none ∧ fk.size ≤ kernel_max p vm ∧
    kernel_end p vm fk.size ≤ fdt_pos p vm ∧
    (kvm__arch_load_kernel_image p vm fk fi).vm.arch.kern_guest_start =
      host_to_guest_flat vm (kernel_pos p vm) ∧
    (kvm__arch_load_kernel_image p vm fk fi).vm.arch.dtb_guest_start = fdt_guest_addr p vm ∧
    (fi = none →
      (kvm__arch_load_kernel_image p vm fk fi).vm.arch.initrd_size = 0 ∧
      (kvm__arch_load_kernel_image p vm fk fi).vm.arch.initrd_guest_start =
        vm.arch.initrd_guest_start) ∧
    (∀ initrd, fi = some initrd → ∃ st_size,
      initrd.st_size = some st_size ∧
      kernel_end p vm fk.size ≤ initrd_pos p vm st_size ∧
      initrd.read_error = none ∧ initrd.size ≤ initrd_max p vm st_size ∧
      (kvm__arch_load_kernel_image p vm fk fi).vm.arch.initrd_guest_start =
        initrd_guest_addr p vm st_size ∧
      (kvm__arch_load_kernel_image p vm fk fi).vm.arch.initrd_size = initrd.size) := by
  rcases read_file_cases fk (kernel_max p vm) with ⟨he, hs, -⟩ | ⟨he, hs, -⟩ | ⟨e, he, -⟩
  · by_cases hfdt : fdt_pos p vm < kernel_end p vm fk.size
    · rw [load_fdt_overlaps p vm fk fi he hs hfdt] at hok
      simp at hok
    · have hfdt := Nat.not_lt.mp hfdt
      cases fi with
      | none =>
        rw [load_without_initrd p vm fk he hs hfdt]
        simp [he, hs, hfdt, vm_after_fdt, vm_after_kernel]
      | some initrd =>
        cases hst : initrd.st_size with
        | none =>
          rw [load_fstat_fails p vm fk initrd he hs hfdt hst] at hok
          simp at hok
        | some st_size =>
          by_cases hrd : initrd_pos p vm st_size < kernel_end p vm fk.size
          · rw [load_initrd_overlaps p vm fk initrd st_size he hs hfdt hst hrd] at hok
            simp at hok
          · have hrd := Nat.not_lt.mp hrd
            rcases read_file_cases initrd (initrd_max p vm st_size) with
              ⟨hie, his, -⟩ | ⟨hie, his, -⟩ | ⟨e, hie, -⟩
            · rw [load_with_initrd p vm fk initrd st_size he hs hfdt hst hrd hie his]
              simp [he, hs, hfdt, hst, hrd, hie, his, vm_after_fdt, vm_after_kernel]
            · rw [load_initrd_too_big p vm fk initrd st_size he hs hfdt hst hrd hie his] at hok
              simp at hok
            · rw [load_initrd_read_error p vm fk initrd st_size e he hs hfdt hst hrd hie] at hok
              simp at hok
  · rw [load_kernel_too_big p vm fk fi he hs] at hok
    simp at hok
  · rw [load_kernel_read_error p vm fk fi e he] at hok
    simp at hok

/-- Every run of `kvm__arch_load_kernel_image` takes one of the nine paths. -/
theorem load_path (p : ArchParams) (vm : kvm) (fk : File) (fi : Option File) :
    LoadPath p vm fk fi (kvm__arch_load_kernel_image p vm fk fi) := by
  rcases read_file_cases fk (kernel_max p vm) with ⟨he, hs, -⟩ | ⟨he, hs, -⟩ | ⟨e, he, -⟩
  · by_cases hfdt : fdt_pos p vm < kernel_end p vm fk.size
    · rw [load_fdt_overlaps p vm fk fi he hs hfdt]
      exact .fdt_overlaps he hs hfdt
    · have hfdt := Nat.not_lt.mp hfdt
      cases hfi : fi with
      | none =>
        rw [load_without_initrd p vm fk he hs hfdt]
        exact .without_initrd he hs hfdt rfl
      | some initrd =>
        cases hst : initrd.st_size with
        | none =>
          rw [load_fstat_fails p vm fk initrd he hs hfdt hst]
          exact .fstat_fails he hs hfdt initrd rfl hst
        | some st_size =>
          by_cases hrd : initrd_pos p vm st_size < kernel_end p vm fk.size
          · rw [load_initrd_overlaps p vm fk initrd st_size he hs hfdt hst hrd]
            exact .initrd_overlaps he hs hfdt initrd rfl st_size hst hrd
          · have hrd := Nat.not_lt.mp hrd
            rcases read_file_cases initrd (initrd_max p vm st_size) with
              ⟨hie, his, -⟩ | ⟨hie, his, -⟩ | ⟨e, hie, -⟩
            · rw [load_with_initrd p vm fk initrd st_size he hs hfdt hst hrd hie his]
              exact .with_initrd he hs hfdt initrd rfl st_size hst hrd hie his
            · rw [load_initrd_too_big p vm fk initrd st_size he hs hfdt hst hrd hie his]
              exact .initrd_too_big he hs hfdt initrd rfl st_size hst hrd hie his
            · rw [load_initrd_read_error p vm fk initrd st_size e he hs hfdt hst hrd hie]
              exact .initrd_read_error he hs hfdt initrd rfl st_size hst hrd e hie
  · rw [load_kernel_too_big p vm fk fi he hs]
    exact .kernel_too_big he hs
  · rw [load_kernel_read_error p vm fk fi e he]
    exact .kernel_read_error e he

/-- On every path `kern_guest_start` is the guest address of the kernel position. -/
theorem load_kern_guest_start (p : ArchParams) (vm : kvm) (fk : File) (fi : Option File) :
    (kvm__arch_load_kernel_image p vm fk fi).vm.arch.kern_guest_start =
      host_to_guest_flat vm (kernel_pos p vm) := by
  have h := load_path p vm fk fi
  generalize kvm__arch_load_kernel_image p vm fk fi = r at h ⊢
  cases h <;> rfl

/-- A run that got past the device-tree step read the kernel under its bound, passed the
overlap check, and recorded the guest address of the device tree. -/
theorem load_past_fdt_inv (p : ArchParams) (vm : kvm) (fk : File) (fi : Option File)
    (h1 : (kvm__arch_load_kernel_image p vm fk fi).out ≠ .die .kernel_too_big)
    (h2 : (kvm__arch_load_kernel_image p vm fk fi).out ≠ .die .perror_kernel_read)
    (h3 : (kvm__arch_load_kernel_image p vm fk fi).out ≠ .die .fdt_overlaps) :
    fk.read_error = none ∧ fk.size ≤ kernel_max p vm ∧
    kernel_end p vm fk.size ≤ fdt_pos p vm ∧
    (kvm__arch_load_kernel_image p vm fk fi).vm.arch.dtb_guest_start = fdt_guest_addr p vm := by
  have h := load_path p vm fk fi
  revert h1 h2 h3
  generalize kvm__arch_load_kernel_image p vm fk fi = r at h ⊢
  cases h with
  | kernel_read_error e he =>
    by_cases h : e = ENOMEM <;> simp [h]
  | kernel_too_big he hs => simp
  | fdt_overlaps he hs hfdt => simp
  | without_initrd he hs hfdt hfi => intros; exact ⟨he, hs, hfdt, rfl⟩
  | fstat_fails he hs hfdt initrd hfi hst => intros; exact ⟨he, hs, hfdt, rfl⟩
  | initrd_overlaps he hs hfdt initrd hfi st_size hst hrd => intros; exact ⟨he, hs, hfdt, rfl⟩
  | initrd_read_error he hs hfdt initrd hfi st_size hst hrd e hie =>
    intros; exact ⟨he, hs, hfdt, rfl⟩
  | initrd_too_big he hs hfdt initrd hfi st_size hst hrd hie his =>
    intros; exact ⟨he, hs, hfdt, rfl⟩
  | with_initrd he hs hfdt initrd hfi st_size hst hrd hie his =>
    intros; exact ⟨he, hs, hfdt, rfl⟩

/-! ## Arithmetic of `ALIGN` -/

/-- Clearing the low `k` bits of a 64-bit word rounds it down to a multiple of `2 ^ k`. -/
theorem land_high_mask (y k : Nat) (hy : y < 2 ^ 64) (hk : k ≤ 64) :
    y &&& (2 ^ 64 - 1 - (2 ^ k - 1)) = y / 2 ^ k * 2 ^ k := by
  have hm : 2 ^ 64 - 1 - (2 ^ k - 1) = 2 ^ k * (2 ^ (64 - k) - 1) := by
    have h1 : 2 ^ k * 2 ^ (64 - k) = 2 ^ 64 := by
      rw [← pow_add]; congr 1; omega
    have h2 : 0 < 2 ^ k := Nat.two_pow_pos k
    rw [Nat.mul_sub, h1]; omega
  apply Nat.eq_of_testBit_eq
  intro i
  rw [hm, Nat.mul_comm (y / 2 ^ k), Nat.testBit_and, Nat.testBit_mul_pow_two,
    Nat.testBit_mul_pow_two, Nat.testBit_two_pow_sub_one, ← Nat.shiftRight_eq_div_pow,
    Nat.testBit_shiftRight]
  by_cases hik : k ≤ i
  · by_cases hi : i < 64
    · have : i - k < 64 - k := by omega
      have e : k + (i - k) = i := by omega
      simp [hik, this, e]
    · have hlt : y < 2 ^ i :=
        lt_of_lt_of_le hy (Nat.pow_le_pow_right (by decide) (by omega))
      have e : k + (i - k) = i := by omega
      simp [Nat.testBit_lt_two_pow hlt, e]
  · simp [hik]

/-- `ALIGN x SZ_2M` (also `ALIGN x FDT_ALIGN`) as division and multiplication. -/
theorem ALIGN_2M (x : Nat) :
    ALIGN x 2097152 = (x + 2097151) % 2 ^ 64 / 2097152 * 2097152 := by
  have h := land_high_mask ((x + 2097151) % 2 ^ 64) 21 (Nat.mod_lt _ (by norm_num)) (by norm_num)
  norm_num at h
  simp only [ALIGN]
  norm_num
  exact h

/-- `ALIGN x INITRD_ALIGN` as division and multiplication. -/
theorem ALIGN_4 (x : Nat) :
    ALIGN x 4 = (x + 3) % 2 ^ 64 / 4 * 4 := by
  have h := land_high_mask ((x + 3) % 2 ^ 64) 2 (Nat.mod_lt _ (by norm_num)) (by norm_num)
  norm_num at h
  simp only [ALIGN]
  norm_num
  exact h

/-! ## Arithmetic of the placement steps -/

/-- Word addition either is exact or wraps once. -/
theorem wadd_cases (a b : Nat) (ha : a < 2 ^ 64) (hb : b < 2 ^ 64) :
    wadd a b < 2 ^ 64 ∧
    ((a + b < 2 ^ 64 ∧ wadd a b = a + b) ∨ (2 ^ 64 ≤ a + b ∧ wadd a b + 2 ^ 64 = a + b)) := by
  unfold wadd
  omega

/-- Word subtraction either is exact or wraps once. -/
theorem wsub_cases (a b : Nat) (ha : a < 2 ^ 64) (hb : b < 2 ^ 64) :
    wsub a b < 2 ^ 64 ∧
    ((b ≤ a ∧ wsub a b + b = a) ∨ (a < b ∧ wsub a b + b = a + 2 ^ 64)) := by
  unfold wsub
  omega

/-- `ALIGN x SZ_2M` is the next multiple of 2 MiB at or above `x`, or `0` on wrap-around. -/
theorem ALIGN_2M_cases (x : Nat) (hx : x < 2 ^ 64) :
    ALIGN x 2097152 < 2 ^ 64 ∧ ALIGN x 2097152 % 2097152 = 0 ∧
    ((x + 2097151 < 2 ^ 64 ∧ x ≤ ALIGN x 2097152 ∧ ALIGN x 2097152 ≤ x + 2097151) ∨
      (2 ^ 64 ≤ x + 2097151 ∧ ALIGN x 2097152 = 0)) := by
  rw [ALIGN_2M]
  omega

/-- `ALIGN x INITRD_ALIGN` is the next multiple of 4 at or above `x`, or `0` on wrap-around. -/
theorem ALIGN_4_cases (x : Nat) (hx : x < 2 ^ 64) :
    ALIGN x 4 < 2 ^ 64 ∧ ALIGN x 4 % 4 = 0 ∧
    ((x + 3 < 2 ^ 64 ∧ x ≤ ALIGN x 4 ∧ ALIGN x 4 ≤ x + 3) ∨
      (2 ^ 64 ≤ x + 3 ∧ ALIGN x 4 = 0)) := by
  rw [ALIGN_4]
  omega

/-- One backward placement step (lines 127-129 and 147-149): from the host address `T`
take off `res` bytes, translate to a guest address, align it to `a`, translate back.
The host address that comes out lies in `[T - res, T - res + a)`, and when it is not
below `R` the guest address is its image under the flat mapping. -/
theorem place_step (R B T res a M : Nat)
    (hR : R < 2 ^ 64) (hB : B < 2 ^ 64) (hT : T < 2 ^ 64)
    (ha : 0 < a) (hres : a ≤ res) (hresT : res ≤ T) (hTM : T < R + M) (hBM : B + M ≤ 2 ^ 64)
    (hal : ∀ x, x < 2 ^ 64 → ALIGN x a < 2 ^ 64 ∧
      ((x + (a - 1) < 2 ^ 64 ∧ x ≤ ALIGN x a ∧ ALIGN x a ≤ x + (a - 1)) ∨
        (2 ^ 64 ≤ x + (a - 1) ∧ ALIGN x a = 0))) :
    T - res ≤ wadd R (wsub (ALIGN (wadd B (wsub (wsub T res) R)) a) B) ∧
    wadd R (wsub (ALIGN (wadd B (wsub (wsub T res) R)) a) B) < T - res + a ∧
    (R ≤ wadd R (wsub (ALIGN (wadd B (wsub (wsub T res) R)) a) B) →
      ALIGN (wadd B (wsub (wsub T res) R)) a + R =
        B + wadd R (wsub (ALIGN (wadd B (wsub (wsub T res) R)) a) B)) := by
  have hres' : res < 2 ^ 64 := by omega
  obtain ⟨q1, q2⟩ := wsub_cases T res hT hres'
  generalize wsub T res = q at *
  obtain ⟨d1, d2⟩ := wsub_cases q R q1 hR
  generalize wsub q R = d at *
  obtain ⟨g1, g2⟩ := wadd_cases B d hB d1
  generalize wadd B d = g0 at *
  obtain ⟨G1, G2⟩ := hal g0 g1
  generalize ALIGN g0 a = G at *
  obtain ⟨e1, e2⟩ := wsub_cases G B G1 hB
  generalize wsub G B = e at *
  obtain ⟨P1, P2⟩ := wadd_cases R e hR e1
  generalize wadd R e = P at *
  clear hal
  omega

/-- The kernel is copied to `ram_start + ARM_KERN_OFFSET`. -/
theorem kernel_pos_eq (p : ArchParams) (vm : kvm)
    (h : vm.ram_start + p.ARM_KERN_OFFSET < 2 ^ 64) :
    kernel_pos p vm = vm.ram_start + p.ARM_KERN_OFFSET := by
  unfold kernel_pos wadd
  omega

/-- The end of the kernel is `ram_start + ARM_KERN_OFFSET + file_size`. -/
theorem kernel_end_eq (p : ArchParams) (vm : kvm) (K : Nat)
    (h : vm.ram_start + p.ARM_KERN_OFFSET + K < 2 ^ 64) :
    kernel_end p vm K = vm.ram_start + p.ARM_KERN_OFFSET + K := by
  unfold kernel_end kernel_pos wadd
  omega

/-- The guest address of the kernel is `memory_guest_start + ARM_KERN_OFFSET`. -/
theorem kernel_guest_eq (p : ArchParams) (vm : kvm)
    (hB : vm.arch.memory_guest_start + p.ARM_KERN_OFFSET < 2 ^ 64) :
    host_to_guest_flat vm (kernel_pos p vm) =
      vm.arch.memory_guest_start + p.ARM_KERN_OFFSET := by
  unfold host_to_guest_flat kernel_pos wadd wsub
  omega

/-- The local `limit` is the last byte of the lowmem window. -/
theorem lowmem_limit_eq (vm : kvm) (h0 : 0 < vm.ram_start)
    (hR : vm.ram_start + min vm.ram_size SZ_256M < 2 ^ 64) :
    lowmem_limit vm = vm.ram_start + min vm.ram_size SZ_256M - 1 := by
  unfold lowmem_limit wadd wsub
  omega

/-- When the kernel offset lies inside the lowmem window the bound of the kernel read
is `L - 1 - ARM_KERN_OFFSET`. -/
theorem kernel_max_eq (p : ArchParams) (vm : kvm)
    (hR : vm.ram_start + min vm.ram_size SZ_256M < 2 ^ 64)
    (hO : p.ARM_KERN_OFFSET < min vm.ram_size SZ_256M) :
    kernel_max p vm = min vm.ram_size SZ_256M - 1 - p.ARM_KERN_OFFSET := by
  unfold kernel_max lowmem_limit kernel_pos wadd wsub
  omega

/-- The device-tree step: its host address lies in the 2 MiB below
`limit - FDT_MAX_SIZE`, its guest address is a multiple of 2 MiB, and when the host
address is not below `ram_start` the two correspond under the flat mapping. -/
theorem fdt_step (p : ArchParams) (vm : kvm)
    (hR : vm.ram_start + min vm.ram_size SZ_256M < 2 ^ 64)
    (hB : vm.arch.memory_guest_start + min vm.ram_size SZ_256M < 2 ^ 64)
    (hF : p.FDT_MAX_SIZE + FDT_ALIGN < vm.ram_start) :
    vm.ram_start + min vm.ram_size SZ_256M ≤ fdt_pos p vm + (p.FDT_MAX_SIZE + FDT_ALIGN) + 1 ∧
    fdt_pos p vm + p.FDT_MAX_SIZE + 2 ≤ vm.ram_start + min vm.ram_size SZ_256M ∧
    fdt_guest_addr p vm % FDT_ALIGN = 0 ∧
    (vm.ram_start ≤ fdt_pos p vm →
      fdt_guest_addr p vm + vm.ram_start = vm.arch.memory_guest_start + fdt_pos p vm) := by
  have hlim := lowmem_limit_eq vm (by omega) hR
  have hst := place_step vm.ram_start vm.arch.memory_guest_start (lowmem_limit vm)
    (p.FDT_MAX_SIZE + FDT_ALIGN) FDT_ALIGN (min vm.ram_size SZ_256M)
    (by omega) (by omega) (by omega) (by decide) (by omega) (by omega) (by omega) (by omega)
    (fun x hx => by
      have := ALIGN_2M_cases x hx
      simp only [FDT_ALIGN, SZ_2M]
      omega)
  have hal := (ALIGN_2M_cases (host_to_guest_flat vm
    (wsub (lowmem_limit vm) (p.FDT_MAX_SIZE + FDT_ALIGN))) (by
      unfold host_to_guest_flat wadd; omega)).2.1
  simp only [fdt_pos, fdt_guest_addr, guest_flat_to_host, host_to_guest_flat, FDT_ALIGN, SZ_2M]
    at hst hal hF hlim ⊢
  omega

/-- The ramdisk step: its host address lies in the 4 bytes at and above
`fdt_pos - (st_size + INITRD_ALIGN)`, its guest address is a multiple of 4, the bound of
its read is the distance up to the device tree, and when the host address is not below
`ram_start` it corresponds to the guest address under the flat mapping. -/
theorem initrd_step (p : ArchParams) (vm : kvm) (S : Nat)
    (hR : vm.ram_start + min vm.ram_size SZ_256M < 2 ^ 64)
    (hB : vm.arch.memory_guest_start + min vm.ram_size SZ_256M < 2 ^ 64)
    (hF : p.FDT_MAX_SIZE + FDT_ALIGN < vm.ram_start)
    (hS : S + INITRD_ALIGN ≤ fdt_pos p vm) :
    fdt_pos p vm ≤ initrd_pos p vm S + (S + INITRD_ALIGN) ∧
    initrd_pos p vm S + S + 1 ≤ fdt_pos p vm ∧
    initrd_guest_addr p vm S % INITRD_ALIGN = 0 ∧
    initrd_max p vm S + initrd_pos p vm S = fdt_pos p vm ∧
    (vm.ram_start ≤ initrd_pos p vm S →
      initrd_guest_addr p vm S + vm.ram_start =
        vm.arch.memory_guest_start + initrd_pos p vm S) := by
  have hfdt := fdt_step p vm hR hB hF
  have hst := place_step vm.ram_start vm.arch.memory_guest_start (fdt_pos p vm)
    (S + INITRD_ALIGN) INITRD_ALIGN (min vm.ram_size SZ_256M)
    (by omega) (by omega) (by omega) (by decide) (by omega) (by omega) (by omega) (by omega)
    (fun x hx => by
      have := ALIGN_4_cases x hx
      simp only [INITRD_ALIGN]
      omega)
  have hal := (ALIGN_4_cases (host_to_guest_flat vm
    (wsub (fdt_pos p vm) (S + INITRD_ALIGN))) (by
      unfold host_to_guest_flat wadd; omega)).2.1
  have hmax := wsub_cases (fdt_pos p vm) (initrd_pos p vm S) (by omega) (by
    unfold initrd_pos guest_flat_to_host wadd; omega)
  simp only [initrd_pos, initrd_guest_addr, initrd_max, guest_flat_to_host, host_to_guest_flat,
    INITRD_ALIGN, FDT_ALIGN, SZ_2M] at hst hal hF hfdt hS hmax ⊢
  omega

/-! ## Memory allocation -/

/-- The three paths through `kvm__arch_init`. -/
theorem arch_init_unfold (p : ArchParams) (host : InitHost) (vm : kvm) (ram_size : Nat) :
    kvm__arch_init p host vm ram_size =
      if host.mmap_anon_or_hugetlbfs (wadd (min ram_size p.ARM_MAX_MEMORY) SZ_2M) =
          MAP_FAILED then
        ⟨vm_after_mmap p host vm ram_size,
          [Event.mmap_anon_or_hugetlbfs (wadd (min ram_size p.ARM_MAX_MEMORY) SZ_2M)],
          .die .failed_to_map⟩
      else if host.gic__create ≠ 0 then
        ⟨vm_after_align p host vm ram_size, arch_init_trace p host ram_size,
          .die .failed_to_create_gic⟩
      else
        ⟨vm_after_align p host vm ram_size, arch_init_trace p host ram_size,
          .returned ()⟩ := by
  rfl

/-- The effect of `kvm__arch_init` on the memory fields when the mapping succeeds,
whatever `gic__create` returns. -/
theorem arch_init_fields (p : ArchParams) (host : InitHost) (vm : kvm) (ram_size : Nat)
    (hmap : host.mmap_anon_or_hugetlbfs (wadd (min ram_size p.ARM_MAX_MEMORY) SZ_2M) ≠
      MAP_FAILED) :
    (kvm__arch_init p host vm ram_size).vm = vm_after_align p host vm ram_size := by
  rw [arch_init_unfold, if_neg hmap]
  split <;> rfl

/-- C1: for every address `A` returned by the mapping call and every requested RAM
size, if the allocation `[A, A + ram_size + 2 MiB)` does not run past the end of the
address space, then after `kvm__arch_init` the start `ram_start = ALIGN(A, 2 MiB)` is a
multiple of 2 MiB, is not below `ram_alloc_start`, and `ram_start + ram_size` does not
exceed `ram_alloc_start + ram_alloc_size`. -/
theorem arch_init_region_inside_allocation (p : ArchParams) (host : InitHost) (vm : kvm)
    (ram_size A : Nat)
    (hA : host.mmap_anon_or_hugetlbfs (wadd (min ram_size p.ARM_MAX_MEMORY) SZ_2M) = A)
    (hfit : A + (min ram_size p.ARM_MAX_MEMORY + SZ_2M) < 2 ^ 64) :
    (kvm__arch_init p host vm ram_size).vm.arch.ram_alloc_start = A ∧
    (kvm__arch_init p host vm ram_size).vm.ram_start = ALIGN A SZ_2M ∧
    (kvm__arch_init p host vm ram_size).vm.ram_start % SZ_2M = 0 ∧
    (kvm__arch_init p host vm ram_size).vm.arch.ram_alloc_start ≤
      (kvm__arch_init p host vm ram_size).vm.ram_start ∧
    (kvm__arch_init p host vm ram_size).vm.ram_start +
        (kvm__arch_init p host vm ram_size).vm.ram_size ≤
      (kvm__arch_init p host vm ram_size).vm.arch.ram_alloc_start +
        (kvm__arch_init p host vm ram_size).vm.arch.ram_alloc_size := by
  have hmap : host.mmap_anon_or_hugetlbfs (wadd (min ram_size p.ARM_MAX_MEMORY) SZ_2M) ≠
      MAP_FAILED := by
    rw [hA]
    simp only [MAP_FAILED, SZ_2M] at hfit ⊢
    omega
  rw [arch_init_fields p host vm ram_size hmap]
  simp only [vm_after_align, vm_after_mmap, hA]
  have hal := ALIGN_2M_cases A (by simp only [SZ_2M] at hfit; omega)
  simp only [SZ_2M, wadd] at hal hfit ⊢
  clear hmap hA
  refine ⟨trivial, trivial, ?_, ?_, ?_⟩ <;> omega

/-- C1 at a sample input: 256 MiB requested, mapping at `0x7f0000100000`. -/
theorem arch_init_region_inside_allocation_witness :
    (kvm__arch_init sample_params sample_host zero_vm 0x10000000).vm.arch.ram_alloc_start =
      0x7f0000100000 ∧
    (kvm__arch_init sample_params sample_host zero_vm 0x10000000).vm.ram_start =
      ALIGN 0x7f0000100000 SZ_2M ∧
    (kvm__arch_init sample_params sample_host zero_vm 0x10000000).vm.ram_start % SZ_2M = 0 ∧
    (kvm__arch_init sample_params sample_host zero_vm 0x10000000).vm.arch.ram_alloc_start ≤
      (kvm__arch_init sample_params sample_host zero_vm 0x10000000).vm.ram_start ∧
    (kvm__arch_init sample_params sample_host zero_vm 0x10000000).vm.ram_start +
        (kvm__arch_init sample_params sample_host zero_vm 0x10000000).vm.ram_size ≤
      (kvm__arch_init sample_params sample_host zero_vm 0x10000000).vm.arch.ram_alloc_start +
        (kvm__arch_init sample_params sample_host zero_vm 0x10000000).vm.arch.ram_alloc_size :=
  arch_init_region_inside_allocation sample_params sample_host zero_vm 0x10000000
    0x7f0000100000 rfl (by decide)

/-- C10: for every requested size `r`, `kvm__arch_init` stores `ram_size = min(r, ARM_MAX_MEMORY)`,
hence at most `r` and at most `ARM_MAX_MEMORY`, stores `ram_alloc_size = ram_size + 2 MiB`,
and the mapping call is the first call made and asks for exactly `ram_alloc_size` bytes.
This holds on every path, the failing ones included, for a platform maximum that leaves
room for the 2 MiB of slack in a 64-bit size. -/
theorem arch_init_sizes (p : ArchParams) (host : InitHost) (vm : kvm) (r : Nat)
    (hmax : p.ARM_MAX_MEMORY + SZ_2M < 2 ^ 64) :
    (kvm__arch_init p host vm r).vm.ram_size = min r p.ARM_MAX_MEMORY ∧
    (kvm__arch_init p host vm r).vm.ram_size ≤ r ∧
    (kvm__arch_init p host vm r).vm.ram_size ≤ p.ARM_MAX_MEMORY ∧
    (kvm__arch_init p host vm r).vm.arch.ram_alloc_size =
      (kvm__arch_init p host vm r).vm.ram_size + SZ_2M ∧
    (kvm__arch_init p host vm r).trace.head? =
      some (Event.mmap_anon_or_hugetlbfs (kvm__arch_init p host vm r).vm.arch.ram_alloc_size) ∧
    (∀ size, Event.mmap_anon_or_hugetlbfs size ∈ (kvm__arch_init p host vm r).trace →
      size = (kvm__arch_init p host vm r).vm.arch.ram_alloc_size) := by
  have hw : wadd (min r p.ARM_MAX_MEMORY) SZ_2M = min r p.ARM_MAX_MEMORY + SZ_2M := by
    simp only [wadd, SZ_2M] at hmax ⊢
    omega
  rw [arch_init_unfold]
  split_ifs <;>
    simp [vm_after_align, vm_after_mmap, arch_init_trace, hw]

/-- C10 at a sample input: 1 GiB requested on the sample platform. -/
theorem arch_init_sizes_witness :
    (kvm__arch_init sample_params sample_host zero_vm 0x40000000).vm.ram_size =
      min 0x40000000 sample_params.ARM_MAX_MEMORY ∧
    (kvm__arch_init sample_params sample_host zero_vm 0x40000000).vm.ram_size ≤ 0x40000000 ∧
    (kvm__arch_init sample_params sample_host zero_vm 0x40000000).vm.ram_size ≤
      sample_params.ARM_MAX_MEMORY ∧
    (kvm__arch_init sample_params sample_host zero_vm 0x40000000).vm.arch.ram_alloc_size =
      (kvm__arch_init sample_params sample_host zero_vm 0x40000000).vm.ram_size + SZ_2M ∧
    (kvm__arch_init sample_params sample_host zero_vm 0x40000000).trace.head? =
      some (Event.mmap_anon_or_hugetlbfs
        (kvm__arch_init sample_params sample_host zero_vm 0x40000000).vm.arch.ram_alloc_size) ∧
    (∀ size, Event.mmap_anon_or_hugetlbfs size ∈
        (kvm__arch_init sample_params sample_host zero_vm 0x40000000).trace →
      size = (kvm__arch_init sample_params sample_host zero_vm 0x40000000).vm.arch.ram_alloc_size) :=
  arch_init_sizes sample_params sample_host zero_vm 0x40000000 (by decide)

/-! ## Address translation -/

/-- C8: inside the mapped range the two translations are inverse to each other, and they
are the formulas `guest_phys_base + (h - ram_start)` and `ram_start + (g - guest_phys_base)`:
for every guest address `x` in `[guest_phys_base, guest_phys_base + ram_size)` and every host
address `y` in `[ram_start, ram_start + ram_size)`, provided neither range runs past the
end of the 64-bit address space. -/
theorem flat_translation_round_trip (vm : kvm) (x y : Nat)
    (hG : vm.arch.memory_guest_start + vm.ram_size ≤ 2 ^ 64)
    (hH : vm.ram_start + vm.ram_size ≤ 2 ^ 64)
    (hx : vm.arch.memory_guest_start ≤ x ∧ x < vm.arch.memory_guest_start + vm.ram_size)
    (hy : vm.ram_start ≤ y ∧ y < vm.ram_start + vm.ram_size) :
    host_to_guest_flat vm (guest_flat_to_host vm x) = x ∧
    guest_flat_to_host vm (host_to_guest_flat vm y) = y ∧
    host_to_guest_flat vm y = vm.arch.memory_guest_start + (y - vm.ram_start) ∧
    guest_flat_to_host vm x = vm.ram_start + (x - vm.arch.memory_guest_start) := by
  have h1 : guest_flat_to_host vm x = vm.ram_start + (x - vm.arch.memory_guest_start) := by
    unfold guest_flat_to_host wadd wsub
    omega
  have h2 : host_to_guest_flat vm y = vm.arch.memory_guest_start + (y - vm.ram_start) := by
    unfold host_to_guest_flat wadd wsub
    omega
  refine ⟨?_, ?_, h2, h1⟩
  · rw [h1]
    unfold host_to_guest_flat wadd wsub
    omega
  · rw [h2]
    unfold guest_flat_to_host wadd wsub
    omega

/-- C8 at a sample input: the guest address `0x80080000` and the host address
`0x7f0000280000` of a 256 MiB guest. -/
theorem flat_translation_round_trip_witness :
    host_to_guest_flat (sample_vm 0x10000000)
        (guest_flat_to_host (sample_vm 0x10000000) 0x80080000) = 0x80080000 ∧
    guest_flat_to_host (sample_vm 0x10000000)
        (host_to_guest_flat (sample_vm 0x10000000) 0x7f0000280000) = 0x7f0000280000 ∧
    host_to_guest_flat (sample_vm 0x10000000) 0x7f0000280000 =
      (sample_vm 0x10000000).arch.memory_guest_start +
        (0x7f0000280000 - (sample_vm 0x10000000).ram_start) ∧
    guest_flat_to_host (sample_vm 0x10000000) 0x80080000 =
      (sample_vm 0x10000000).ram_start +
        (0x80080000 - (sample_vm 0x10000000).arch.memory_guest_start) :=
  flat_translation_round_trip (sample_vm 0x10000000) 0x80080000 0x7f0000280000
    (by decide) (by decide) (by decide) (by decide)

/-! ## Placement of the kernel -/

/-- A kernel that is read under its bound does not end the run in a kernel error. -/
theorem load_kernel_read_ok (p : ArchParams) (vm : kvm) (fk : File) (fi : Option File)
    (he : fk.read_error = none) (hs : fk.size ≤ kernel_max p vm) :
    (kvm__arch_load_kernel_image p vm fk fi).out ≠ .die .kernel_too_big ∧
    (kvm__arch_load_kernel_image p vm fk fi).out ≠ .die .perror_kernel_read := by
  have h := load_path p vm fk fi
  generalize kvm__arch_load_kernel_image p vm fk fi = r at h ⊢
  cases h with
  | kernel_read_error e he' => rw [he] at he'; cases he'
  | kernel_too_big he' hs' => omega
  | initrd_read_error he hs hfdt initrd hfi st_size hst hrd e hie =>
    by_cases h : e = ENOMEM <;> simp [h]
  | _ => simp

/-- C2, as stated, fails: with 256 MiB of RAM and kernel offset `0x80000`, a readable
kernel of 255 MiB satisfies `kernel_offset + K < L`, yet the call ends in
"fdt overlaps with kernel image." -/
theorem load_succeeds_when_kernel_fits_counterexample :
    sample_params.ARM_KERN_OFFSET + (sample_file 0xFF00000).size <
      min (sample_vm 0x10000000).ram_size SZ_256M ∧
    (kvm__arch_load_kernel_image sample_params (sample_vm 0x10000000)
      (sample_file 0xFF00000) none).out = .die .fdt_overlaps := by
  constructor
  · decide
  · rfl

/-- C2, amended: for every readable kernel of `K` bytes with `kernel_offset + K < L`,
`L = min(ram_size, 256 MiB)`, the kernel read succeeds (the call does not end in either
kernel error) and `kern_guest_start = guest_phys_base + kernel_offset`.  With no ramdisk
the call returns true exactly when the device tree is not placed below the end of the
kernel, which is the case whenever `kernel_offset + K + FDT_MAX_SIZE + 2 MiB < L`; with a
readable ramdisk of `S` bytes it returns true whenever
`kernel_offset + K + FDT_MAX_SIZE + 2 MiB + S + 4 < L`. -/
theorem load_kernel_fits (p : ArchParams) (vm : kvm) (fk : File) (fi : Option File)
    (hR : vm.ram_start + vm.ram_size < 2 ^ 64)
    (hB : vm.arch.memory_guest_start + vm.ram_size < 2 ^ 64)
    (hF : p.FDT_MAX_SIZE + FDT_ALIGN < vm.ram_start)
    (he : fk.read_error = none)
    (hK : p.ARM_KERN_OFFSET + fk.size < min vm.ram_size SZ_256M) :
    (kvm__arch_load_kernel_image p vm fk fi).vm.arch.kern_guest_start =
      vm.arch.memory_guest_start + p.ARM_KERN_OFFSET ∧
    (kvm__arch_load_kernel_image p vm fk fi).out ≠ .die .kernel_too_big ∧
    (kvm__arch_load_kernel_image p vm fk fi).out ≠ .die .perror_kernel_read ∧
    (fi = none →
      ((kvm__arch_load_kernel_image p vm fk fi).out = .returned true ↔
        kernel_end p vm fk.size ≤ fdt_pos p vm)) ∧
    (fi = none →
      p.ARM_KERN_OFFSET + fk.size + p.FDT_MAX_SIZE + FDT_ALIGN < min vm.ram_size SZ_256M →
      (kvm__arch_load_kernel_image p vm fk fi).out = .returned true) ∧
    (∀ initrd S, fi = some initrd → initrd.st_size = some S → initrd.read_error = none →
      initrd.size ≤ S →
      p.ARM_KERN_OFFSET + fk.size + p.FDT_MAX_SIZE + FDT_ALIGN + S + INITRD_ALIGN <
        min vm.ram_size SZ_256M →
      (kvm__arch_load_kernel_image p vm fk fi).out = .returned true) := by
  have hL : min vm.ram_size SZ_256M ≤ vm.ram_size := Nat.min_le_left _ _
  have hmax := kernel_max_eq p vm (by omega) (by omega)
  have hs : fk.size ≤ kernel_max p vm := by omega
  have hend := kernel_end_eq p vm fk.size (by omega)
  have hkg := kernel_guest_eq p vm (by omega)
  have hfdt := fdt_step p vm (by omega) (by omega) hF
  obtain ⟨hk1, hk2⟩ := load_kernel_read_ok p vm fk fi he hs
  refine ⟨by rw [load_kern_guest_start, hkg], hk1, hk2, ?_, ?_, ?_⟩
  · intro hfi
    subst hfi
    by_cases h : fdt_pos p vm < kernel_end p vm fk.size
    · rw [load_fdt_overlaps p vm fk none he hs h]
      constructor
      · intro hc; cases hc
      · intro hc; omega
    · rw [load_without_initrd p vm fk he hs (Nat.not_lt.mp h)]
      constructor
      · intro _; omega
      · intro _; rfl
  · intro hfi hroom
    subst hfi
    rw [load_without_initrd p vm fk he hs (by omega)]
  · intro initrd S hfi hst hie his hroom
    subst hfi
    have hird := initrd_step p vm S (by omega) (by omega) hF (by
      simp only [INITRD_ALIGN, FDT_ALIGN, SZ_2M] at hroom hfdt hF ⊢
      omega)
    rw [load_with_initrd p vm fk initrd S he hs (by omega) hst (by
      simp only [INITRD_ALIGN, FDT_ALIGN, SZ_2M] at hroom hfdt hF hird ⊢
      omega) hie (by omega)]

/-- C2, amended, at the sample input: 256 MiB of RAM, a readable kernel of 8 MiB and no
ramdisk: the kernel is at `0x80080000` and the call returns true. -/
theorem load_kernel_fits_witness :
    (kvm__arch_load_kernel_image sample_params (sample_vm 0x10000000)
      (sample_file 0x800000) none).vm.arch.kern_guest_start = 0x80000000 + 0x80000 ∧
    (kvm__arch_load_kernel_image sample_params (sample_vm 0x10000000)
      (sample_file 0x800000) none).out = .returned true :=
  have h := load_kernel_fits sample_params (sample_vm 0x10000000) (sample_file 0x800000) none
    (by decide) (by decide) (by decide) rfl (by decide)
  ⟨h.1, h.2.2.2.2.1 rfl (by decide)⟩

/-- The oversize kernel inside the window: when the kernel offset lies inside the lowmem
window `L = min(ram_size, 256 MiB)`,
every readable kernel of `K ≥ L - kernel_offset` bytes ends the call in
"kernel image too big to contain in guest memory.": the only call made is the kernel
read, to `ram_start + kernel_offset` with bound `L - 1 - kernel_offset`, which `K`
exceeds, and no device-tree or ramdisk placement is recorded. -/
theorem load_kernel_too_large (p : ArchParams) (vm : kvm) (fk : File) (fi : Option File)
    (hR : vm.ram_start + vm.ram_size < 2 ^ 64)
    (he : fk.read_error = none)
    (hO : p.ARM_KERN_OFFSET < min vm.ram_size SZ_256M)
    (hK : min vm.ram_size SZ_256M - p.ARM_KERN_OFFSET ≤ fk.size) :
    (kvm__arch_load_kernel_image p vm fk fi).out = .die .kernel_too_big ∧
    (kvm__arch_load_kernel_image p vm fk fi).trace =
      [Event.read_file .fd_kernel (vm.ram_start + p.ARM_KERN_OFFSET)
        (min vm.ram_size SZ_256M - 1 - p.ARM_KERN_OFFSET)] ∧
    min vm.ram_size SZ_256M - 1 - p.ARM_KERN_OFFSET < fk.size ∧
    (kvm__arch_load_kernel_image p vm fk fi).vm.arch.dtb_guest_start =
      vm.arch.dtb_guest_start ∧
    (kvm__arch_load_kernel_image p vm fk fi).vm.arch.initrd_guest_start =
      vm.arch.initrd_guest_start ∧
    (kvm__arch_load_kernel_image p vm fk fi).vm.arch.initrd_size = vm.arch.initrd_size := by
  have hL : min vm.ram_size SZ_256M ≤ vm.ram_size := Nat.min_le_left _ _
  have hmax := kernel_max_eq p vm (by omega) hO
  have hpos := kernel_pos_eq p vm (by omega)
  rw [load_kernel_too_big p vm fk fi he (by omega)]
  refine ⟨rfl, ?_, by omega, rfl, rfl, rfl⟩
  simp only [kernel_read_event, hmax, hpos]

/-- The oversize kernel at a sample input: 256 MiB of RAM and a kernel of exactly
`L - kernel_offset` bytes. -/
theorem load_kernel_too_large_witness :
    (kvm__arch_load_kernel_image sample_params (sample_vm 0x10000000)
      (sample_file 0xFF80000) none).out = .die .kernel_too_big ∧
    (kvm__arch_load_kernel_image sample_params (sample_vm 0x10000000)
      (sample_file 0xFF80000) none).trace =
      [Event.read_file .fd_kernel 0x7f0000280000 0xFF7FFFF] :=
  have h := load_kernel_too_large sample_params (sample_vm 0x10000000) (sample_file 0xFF80000)
    none (by decide) rfl (by decide) (by decide)
  ⟨h.1, h.2.1⟩

/-- C4: whenever the call returns, and no host address computed on the way wraps around,
the kernel `[kern_guest_start, kern_guest_start + K)`, the device tree
`[dtb_guest_start, dtb_guest_start + FDT_MAX_SIZE)` and, if supplied, the ramdisk
`[initrd_guest_start, initrd_guest_start + initrd_size)` are pairwise disjoint (kernel,
then ramdisk, then device tree) and lie inside
`[guest_phys_base, guest_phys_base + min(ram_size, 256 MiB))`, for every `ram_size`,
kernel size and ramdisk size. -/
theorem load_layout (p : ArchParams) (vm : kvm) (fk : File) (fi : Option File)
    (hR : vm.ram_start + vm.ram_size < 2 ^ 64)
    (hB : vm.arch.memory_guest_start + vm.ram_size < 2 ^ 64)
    (hF : p.FDT_MAX_SIZE + FDT_ALIGN < vm.ram_start)
    (hK : vm.ram_start + p.ARM_KERN_OFFSET + fk.size < 2 ^ 64)
    (hS : ∀ initrd S, fi = some initrd → initrd.st_size = some S →
      S + INITRD_ALIGN ≤ vm.ram_start)
    (hok : (kvm__arch_load_kernel_image p vm fk fi).out = .returned true) :
    vm.arch.memory_guest_start ≤
      (kvm__arch_load_kernel_image p vm fk fi).vm.arch.kern_guest_start ∧
    (kvm__arch_load_kernel_image p vm fk fi).vm.arch.kern_guest_start + fk.size ≤
      (kvm__arch_load_kernel_image p vm fk fi).vm.arch.dtb_guest_start ∧
    (kvm__arch_load_kernel_image p vm fk fi).vm.arch.dtb_guest_start + p.FDT_MAX_SIZE ≤
      vm.arch.memory_guest_start + min vm.ram_size SZ_256M ∧
    (fi ≠ none →
      (kvm__arch_load_kernel_image p vm fk fi).vm.arch.kern_guest_start + fk.size ≤
        (kvm__arch_load_kernel_image p vm fk fi).vm.arch.initrd_guest_start ∧
      (kvm__arch_load_kernel_image p vm fk fi).vm.arch.initrd_guest_start +
          (kvm__arch_load_kernel_image p vm fk fi).vm.arch.initrd_size ≤
        (kvm__arch_load_kernel_image p vm fk fi).vm.arch.dtb_guest_start) := by
  have hL : min vm.ram_size SZ_256M ≤ vm.ram_size := Nat.min_le_left _ _
  obtain ⟨he, hs, hfdt, hkern, hdtb, -, hird⟩ := load_returned_inv p vm fk fi true hok
  have hend := kernel_end_eq p vm fk.size hK
  have hstep := fdt_step p vm (by omega) (by omega) hF
  have hkg := kernel_guest_eq p vm (by omega)
  rw [hkern, hdtb, hkg]
  refine ⟨by omega, by omega, by omega, ?_⟩
  intro hfi
  cases hfi' : fi with
  | none => exact absurd hfi' hfi
  | some initrd =>
    obtain ⟨S, hst, hrd, hie, his, hig, hisz⟩ := hird initrd hfi'
    have hin := initrd_step p vm S (by omega) (by omega) hF (by
      have := hS initrd S hfi' hst
      omega)
    rw [← hfi', hig, hisz]
    omega

/-- C4 at a sample input: 256 MiB of RAM, a kernel of 8 MiB and a ramdisk of 1000 bytes. -/
theorem load_layout_witness :
    (0x80000000 : Nat) ≤
      (kvm__arch_load_kernel_image sample_params (sample_vm 0x10000000)
        (sample_file 0x800000) (some (sample_file 1000))).vm.arch.kern_guest_start ∧
    (kvm__arch_load_kernel_image sample_params (sample_vm 0x10000000)
        (sample_file 0x800000) (some (sample_file 1000))).vm.arch.kern_guest_start + 0x800000 ≤
      (kvm__arch_load_kernel_image sample_params (sample_vm 0x10000000)
        (sample_file 0x800000) (some (sample_file 1000))).vm.arch.initrd_guest_start ∧
    (kvm__arch_load_kernel_image sample_params (sample_vm 0x10000000)
        (sample_file 0x800000) (some (sample_file 1000))).vm.arch.initrd_guest_start +
        (kvm__arch_load_kernel_image sample_params (sample_vm 0x10000000)
          (sample_file 0x800000) (some (sample_file 1000))).vm.arch.initrd_size ≤
      (kvm__arch_load_kernel_image sample_params (sample_vm 0x10000000)
        (sample_file 0x800000) (some (sample_file 1000))).vm.arch.dtb_guest_start ∧
    (kvm__arch_load_kernel_image sample_params (sample_vm 0x10000000)
        (sample_file 0x800000) (some (sample_file 1000))).vm.arch.dtb_guest_start + 0x10000 ≤
      0x80000000 + 0x10000000 :=
  have h := load_layout sample_params (sample_vm 0x10000000) (sample_file 0x800000)
    (some (sample_file 1000)) (by decide) (by decide) (by decide) (by decide)
    (fun initrd S hfi hst => by cases hfi; cases hst; decide) rfl
  ⟨h.1, (h.2.2.2 (by simp)).1, (h.2.2.2 (by simp)).2, h.2.2.1⟩

/-! ## Placement of the device tree -/

/-- C5: on every input on which the call gets past the device-tree step (it ends in none
of the two kernel errors nor in the device-tree overlap error), `dtb_guest_start` is
strictly below the guest address of `limit`, `guest_phys_base + min(ram_size, 256 MiB) - 1`,
and not below the end of the kernel, `kern_guest_start + K`; and whenever the kernel has
been read and the placement point computed for the device tree is below `kernel_end`, the
call ends in "fdt overlaps with kernel image." and `dtb_guest_start` keeps its old value.
No host address computed on the way is assumed to wrap around. -/
theorem fdt_placement (p : ArchParams) (vm : kvm) (fk : File) (fi : Option File)
    (hR : vm.ram_start + vm.ram_size < 2 ^ 64)
    (hB : vm.arch.memory_guest_start + vm.ram_size < 2 ^ 64)
    (hF : p.FDT_MAX_SIZE + FDT_ALIGN < vm.ram_start)
    (hK : vm.ram_start + p.ARM_KERN_OFFSET + fk.size < 2 ^ 64) :
    ((kvm__arch_load_kernel_image p vm fk fi).out ≠ .die .kernel_too_big →
      (kvm__arch_load_kernel_image p vm fk fi).out ≠ .die .perror_kernel_read →
      (kvm__arch_load_kernel_image p vm fk fi).out ≠ .die .fdt_overlaps →
      (kvm__arch_load_kernel_image p vm fk fi).vm.arch.dtb_guest_start <
        vm.arch.memory_guest_start + min vm.ram_size SZ_256M - 1 ∧
      (kvm__arch_load_kernel_image p vm fk fi).vm.arch.kern_guest_start + fk.size ≤
        (kvm__arch_load_kernel_image p vm fk fi).vm.arch.dtb_guest_start) ∧
    (fk.read_error = none → fk.size ≤ kernel_max p vm →
      fdt_pos p vm < kernel_end p vm fk.size →
      (kvm__arch_load_kernel_image p vm fk fi).out = .die .fdt_overlaps ∧
      (kvm__arch_load_kernel_image p vm fk fi).vm.arch.dtb_guest_start =
        vm.arch.dtb_guest_start) := by
  have hL : min vm.ram_size SZ_256M ≤ vm.ram_size := Nat.min_le_left _ _
  constructor
  · intro h1 h2 h3
    obtain ⟨he, hs, hfdt, hdtb⟩ := load_past_fdt_inv p vm fk fi h1 h2 h3
    have hend := kernel_end_eq p vm fk.size hK
    have hstep := fdt_step p vm (by omega) (by omega) hF
    have hkg := kernel_guest_eq p vm (by omega)
    rw [load_kern_guest_start, hdtb, hkg]
    omega
  · intro he hs hfdt
    rw [load_fdt_overlaps p vm fk fi he hs hfdt]
    exact ⟨rfl, rfl⟩

/-- C5 at two sample inputs with 256 MiB of RAM: a kernel of 8 MiB gets past the
device-tree step, a kernel of 255 MiB does not. -/
theorem fdt_placement_witness :
    ((kvm__arch_load_kernel_image sample_params (sample_vm 0x10000000)
        (sample_file 0x800000) none).vm.arch.dtb_guest_start <
        0x80000000 + 0x10000000 - 1 ∧
      (kvm__arch_load_kernel_image sample_params (sample_vm 0x10000000)
        (sample_file 0x800000) none).vm.arch.kern_guest_start + 0x800000 ≤
        (kvm__arch_load_kernel_image sample_params (sample_vm 0x10000000)
          (sample_file 0x800000) none).vm.arch.dtb_guest_start) ∧
    ((kvm__arch_load_kernel_image sample_params (sample_vm 0x10000000)
        (sample_file 0xFF00000) none).out = .die .fdt_overlaps ∧
      (kvm__arch_load_kernel_image sample_params (sample_vm 0x10000000)
        (sample_file 0xFF00000) none).vm.arch.dtb_guest_start = 0) :=
  ⟨(fdt_placement sample_params (sample_vm 0x10000000) (sample_file 0x800000) none
      (by decide) (by decide) (by decide) (by decide)).1 (by decide) (by decide) (by decide),
    (fdt_placement sample_params (sample_vm 0x10000000) (sample_file 0xFF00000) none
      (by decide) (by decide) (by decide) (by decide)).2 rfl (by decide) (by decide)⟩

/-- C7, as stated, fails on its own scenario: with 256 MiB of RAM, kernel offset `0x80000`,
a kernel of 8 MiB and no ramdisk the call returns true with the kernel at
`guest_phys_base + 0x80000`, and `dtb_guest_start` is `0x8FE00000`, not the guest address
of `limit - (FDT_MAX_SIZE + 2 MiB)` rounded down to a multiple of 2 MiB, `0x8FC00000`. -/
theorem dtb_aligned_down_counterexample :
    (kvm__arch_load_kernel_image sample_params (sample_vm 0x10000000)
      (sample_file 0x800000) none).out = .returned true ∧
    (kvm__arch_load_kernel_image sample_params (sample_vm 0x10000000)
      (sample_file 0x800000) none).vm.arch.kern_guest_start = 0x80000000 + 0x80000 ∧
    (kvm__arch_load_kernel_image sample_params (sample_vm 0x10000000)
      (sample_file 0x800000) none).vm.arch.dtb_guest_start = 0x8FE00000 ∧
    (0x80000000 + min 0x10000000 SZ_256M - 1 - (sample_params.FDT_MAX_SIZE + SZ_2M)) /
      SZ_2M * SZ_2M = 0x8FC00000 := by
  refine ⟨rfl, rfl, rfl, ?_⟩
  decide

/-- C7, amended: on every call that returns, `dtb_guest_start` is the guest address of
`limit - (FDT_MAX_SIZE + 2 MiB)` rounded UP to a multiple of 2 MiB, where the guest
address of `limit` is `guest_phys_base + min(ram_size, 256 MiB) - 1`: it is a multiple of
2 MiB, not below that address, less than 2 MiB above it, and equal to `ALIGN` of it.
No host address computed on the way is assumed to wrap around. -/
theorem dtb_aligned_up (p : ArchParams) (vm : kvm) (fk : File) (fi : Option File)
    (hR : vm.ram_start + vm.ram_size < 2 ^ 64)
    (hB : vm.arch.memory_guest_start + vm.ram_size < 2 ^ 64)
    (hF : p.FDT_MAX_SIZE + FDT_ALIGN < vm.ram_start)
    (hK : vm.ram_start + p.ARM_KERN_OFFSET + fk.size < 2 ^ 64)
    (hok : (kvm__arch_load_kernel_image p vm fk fi).out = .returned true) :
    (kvm__arch_load_kernel_image p vm fk fi).vm.arch.dtb_guest_start % FDT_ALIGN = 0 ∧
    vm.arch.memory_guest_start + min vm.ram_size SZ_256M - 1 - (p.FDT_MAX_SIZE + FDT_ALIGN) ≤
      (kvm__arch_load_kernel_image p vm fk fi).vm.arch.dtb_guest_start ∧
    (kvm__arch_load_kernel_image p vm fk fi).vm.arch.dtb_guest_start <
      vm.arch.memory_guest_start + min vm.ram_size SZ_256M - 1 - (p.FDT_MAX_SIZE + FDT_ALIGN) +
        FDT_ALIGN ∧
    (kvm__arch_load_kernel_image p vm fk fi).vm.arch.dtb_guest_start =
      ALIGN (vm.arch.memory_guest_start + min vm.ram_size SZ_256M - 1 -
        (p.FDT_MAX_SIZE + FDT_ALIGN)) FDT_ALIGN := by
  have hL : min vm.ram_size SZ_256M ≤ vm.ram_size := Nat.min_le_left _ _
  obtain ⟨he, hs, hfdt, -, hdtb, -, -⟩ := load_returned_inv p vm fk fi true hok
  have hend := kernel_end_eq p vm fk.size hK
  have hstep := fdt_step p vm (by omega) (by omega) hF
  have hal := ALIGN_2M_cases (vm.arch.memory_guest_start + min vm.ram_size SZ_256M - 1 -
    (p.FDT_MAX_SIZE + FDT_ALIGN)) (by omega)
  rw [hdtb]
  simp only [FDT_ALIGN, SZ_2M] at hstep hal hF ⊢
  refine ⟨by omega, by omega, by omega, ?_⟩
  omega

/-- C7, amended, at the scenario: the device tree is at `0x8FE00000`, which is `ALIGN` of
the guest address `0x8FDEFFFF` of `limit - (FDT_MAX_SIZE + 2 MiB)`. -/
theorem dtb_aligned_up_witness :
    (kvm__arch_load_kernel_image sample_params (sample_vm 0x10000000)
      (sample_file 0x800000) none).vm.arch.dtb_guest_start % FDT_ALIGN = 0 ∧
    (kvm__arch_load_kernel_image sample_params (sample_vm 0x10000000)
      (sample_file 0x800000) none).vm.arch.dtb_guest_start =
      ALIGN ((sample_vm 0x10000000).arch.memory_guest_start +
        min (sample_vm 0x10000000).ram_size SZ_256M - 1 -
        (sample_params.FDT_MAX_SIZE + FDT_ALIGN)) FDT_ALIGN :=
  have h := dtb_aligned_up sample_params (sample_vm 0x10000000) (sample_file 0x800000) none
    (by decide) (by decide) (by decide) (by decide) rfl
  ⟨h.1, h.2.2.2⟩

/-! ## Placement of the ramdisk -/

/-- C6: when the call returns and a ramdisk was supplied, `initrd_guest_start` is not below
the end of the kernel, `kern_guest_start + K`, and `initrd_guest_start + initrd_size` does
not exceed `dtb_guest_start` (no host address computed on the way being assumed to wrap
around); when it returns and no ramdisk was supplied, `initrd_size` is 0. -/
theorem initrd_placement (p : ArchParams) (vm : kvm) (fk : File) (fi : Option File)
    (hok : (kvm__arch_load_kernel_image p vm fk fi).out = .returned true) :
    (∀ initrd S, fi = some initrd → initrd.st_size = some S →
      vm.ram_start + vm.ram_size < 2 ^ 64 →
      vm.arch.memory_guest_start + vm.ram_size < 2 ^ 64 →
      p.FDT_MAX_SIZE + FDT_ALIGN < vm.ram_start →
      vm.ram_start + p.ARM_KERN_OFFSET + fk.size < 2 ^ 64 →
      S + INITRD_ALIGN ≤ vm.ram_start →
      (kvm__arch_load_kernel_image p vm fk fi).vm.arch.kern_guest_start + fk.size ≤
        (kvm__arch_load_kernel_image p vm fk fi).vm.arch.initrd_guest_start ∧
      (kvm__arch_load_kernel_image p vm fk fi).vm.arch.initrd_guest_start +
          (kvm__arch_load_kernel_image p vm fk fi).vm.arch.initrd_size ≤
        (kvm__arch_load_kernel_image p vm fk fi).vm.arch.dtb_guest_start) ∧
    (fi = none → (kvm__arch_load_kernel_image p vm fk fi).vm.arch.initrd_size = 0) := by
  obtain ⟨he, hs, hfdt, hkern, hdtb, hnone, hird⟩ := load_returned_inv p vm fk fi true hok
  refine ⟨?_, fun hfi => (hnone hfi).1⟩
  intro initrd S hfi hst hR hB hF hK hS
  have hL : min vm.ram_size SZ_256M ≤ vm.ram_size := Nat.min_le_left _ _
  obtain ⟨S', hst', hrd, hie, his, hig, hisz⟩ := hird initrd hfi
  rw [hst] at hst'
  cases hst'
  have hend := kernel_end_eq p vm fk.size hK
  have hstep := fdt_step p vm (by omega) (by omega) hF
  have hkg := kernel_guest_eq p vm (by omega)
  have hin := initrd_step p vm S (by omega) (by omega) hF (by omega)
  rw [hkern, hdtb, hkg, hig, hisz]
  omega

/-- C6 at a sample input: 256 MiB of RAM, a kernel of 8 MiB and a ramdisk of 1000 bytes. -/
theorem initrd_placement_witness :
    (kvm__arch_load_kernel_image sample_params (sample_vm 0x10000000)
        (sample_file 0x800000) (some (sample_file 1000))).vm.arch.kern_guest_start + 0x800000 ≤
      (kvm__arch_load_kernel_image sample_params (sample_vm 0x10000000)
        (sample_file 0x800000) (some (sample_file 1000))).vm.arch.initrd_guest_start ∧
    (kvm__arch_load_kernel_image sample_params (sample_vm 0x10000000)
        (sample_file 0x800000) (some (sample_file 1000))).vm.arch.initrd_guest_start +
        (kvm__arch_load_kernel_image sample_params (sample_vm 0x10000000)
          (sample_file 0x800000) (some (sample_file 1000))).vm.arch.initrd_size ≤
      (kvm__arch_load_kernel_image sample_params (sample_vm 0x10000000)
        (sample_file 0x800000) (some (sample_file 1000))).vm.arch.dtb_guest_start :=
  (initrd_placement sample_params (sample_vm 0x10000000) (sample_file 0x800000)
    (some (sample_file 1000)) rfl).1 (sample_file 1000) 1000 rfl rfl
    (by decide) (by decide) (by decide) (by decide) (by decide)

/-- C9: when the ramdisk step is reached (the kernel was read and the device tree placed),
`fstat` reports `S` bytes, and the placement point computed for the ramdisk is below
`kernel_end`, the call ends in "initrd overlaps with kernel image.", no read of the
ramdisk is among the calls made, and `initrd_guest_start` and `initrd_size` keep their
old values. -/
theorem initrd_overlap_before_read (p : ArchParams) (vm : kvm) (fk initrd : File) (S : Nat)
    (he : fk.read_error = none) (hs : fk.size ≤ kernel_max p vm)
    (hfdt : kernel_end p vm fk.size ≤ fdt_pos p vm)
    (hst : initrd.st_size = some S)
    (hrd : initrd_pos p vm S < kernel_end p vm fk.size) :
    (kvm__arch_load_kernel_image p vm fk (some initrd)).out = .die .initrd_overlaps ∧
    (∀ buf max_size, Event.read_file .fd_initrd buf max_size ∉
      (kvm__arch_load_kernel_image p vm fk (some initrd)).trace) ∧
    (kvm__arch_load_kernel_image p vm fk (some initrd)).vm.arch.initrd_guest_start =
      vm.arch.initrd_guest_start ∧
    (kvm__arch_load_kernel_image p vm fk (some initrd)).vm.arch.initrd_size =
      vm.arch.initrd_size := by
  rw [load_initrd_overlaps p vm fk initrd S he hs hfdt hst hrd]
  refine ⟨rfl, ?_, rfl, rfl⟩
  intro buf max_size
  simp [kernel_read_event]

/-- C9 at a sample input: 256 MiB of RAM, a kernel of 8 MiB and a ramdisk of 250 MiB. -/
theorem initrd_overlap_before_read_witness :
    (kvm__arch_load_kernel_image sample_params (sample_vm 0x10000000)
      (sample_file 0x800000) (some (sample_file 0xFA00000))).out = .die .initrd_overlaps ∧
    (∀ buf max_size, Event.read_file .fd_initrd buf max_size ∉
      (kvm__arch_load_kernel_image sample_params (sample_vm 0x10000000)
        (sample_file 0x800000) (some (sample_file 0xFA00000))).trace) ∧
    (kvm__arch_load_kernel_image sample_params (sample_vm 0x10000000)
      (sample_file 0x800000) (some (sample_file 0xFA00000))).vm.arch.initrd_guest_start =
      (sample_vm 0x10000000).arch.initrd_guest_start ∧
    (kvm__arch_load_kernel_image sample_params (sample_vm 0x10000000)
      (sample_file 0x800000) (some (sample_file 0xFA00000))).vm.arch.initrd_size =
      (sample_vm 0x10000000).arch.initrd_size :=
  initrd_overlap_before_read sample_params (sample_vm 0x10000000) (sample_file 0x800000)
    (sample_file 0xFA00000) 0xFA00000 rfl (by decide) (by decide) rfl (by decide)

/-! ## Registration and release of guest memory -/

/-- C11: `kvm__init_ram` makes exactly one call, the registration of `ram_size` bytes at
host pointer `ram_start` under the guest base `ARM_MEMORY_AREA`; when that call returns 0
the function returns with `memory_guest_start = ARM_MEMORY_AREA`, and when it returns
anything else the function dies with "Failed to register ..." and the `struct kvm`,
`memory_guest_start` included, is left as it was. -/
theorem init_ram_registers_once (p : ArchParams) (err : Int) (vm : kvm) :
    (kvm__init_ram p err vm).trace =
      [Event.kvm__register_mem p.ARM_MEMORY_AREA vm.ram_size vm.ram_start] ∧
    (err = 0 →
      (kvm__init_ram p err vm).out = .returned () ∧
      (kvm__init_ram p err vm).vm.arch.memory_guest_start = p.ARM_MEMORY_AREA) ∧
    (err ≠ 0 →
      (kvm__init_ram p err vm).out = .die .failed_to_register ∧
      (kvm__init_ram p err vm).vm = vm) := by
  unfold kvm__init_ram
  by_cases h : err = 0
  · simp [h]
  · simp [h]

/-- C11 at sample inputs: the registration of a 256 MiB guest succeeds (`err = 0`) and
fails (`err = -22`). -/
theorem init_ram_registers_once_witness :
    ((kvm__init_ram sample_params 0 (sample_vm 0x10000000)).out = .returned () ∧
      (kvm__init_ram sample_params 0 (sample_vm 0x10000000)).vm.arch.memory_guest_start =
        sample_params.ARM_MEMORY_AREA) ∧
    ((kvm__init_ram sample_params (-22) zero_vm).out = .die .failed_to_register ∧
      (kvm__init_ram sample_params (-22) zero_vm).vm = zero_vm) :=
  ⟨(init_ram_registers_once sample_params 0 (sample_vm 0x10000000)).2.1 rfl,
    (init_ram_registers_once sample_params (-22) zero_vm).2.2 (by decide)⟩

/-- C12: on the `struct kvm` left by `kvm__arch_init`, `kvm__arch_delete_ram` makes exactly
one call, `munmap` of the recorded `ram_alloc_start` and `ram_alloc_size`: the address the
mapping call returned and `ram_size + 2 MiB` bytes.  That is not the aligned range
`(ram_start, ram_size)`, and the `struct kvm` is not changed.  The platform maximum is
taken to leave room for the 2 MiB of slack in a 64-bit size. -/
theorem delete_ram_unmaps_allocation (p : ArchParams) (host : InitHost) (vm : kvm) (r : Nat)
    (hmax : p.ARM_MAX_MEMORY + SZ_2M < 2 ^ 64) :
    (kvm__arch_delete_ram (kvm__arch_init p host vm r).vm).trace =
      [Event.munmap (kvm__arch_init p host vm r).vm.arch.ram_alloc_start
        (kvm__arch_init p host vm r).vm.arch.ram_alloc_size] ∧
    (kvm__arch_init p host vm r).vm.arch.ram_alloc_start =
      host.mmap_anon_or_hugetlbfs (min r p.ARM_MAX_MEMORY + SZ_2M) ∧
    (kvm__arch_init p host vm r).vm.arch.ram_alloc_size =
      (kvm__arch_init p host vm r).vm.ram_size + SZ_2M ∧
    (kvm__arch_delete_ram (kvm__arch_init p host vm r).vm).trace ≠
      [Event.munmap (kvm__arch_init p host vm r).vm.ram_start
        (kvm__arch_init p host vm r).vm.ram_size] ∧
    (kvm__arch_delete_ram (kvm__arch_init p host vm r).vm).vm =
      (kvm__arch_init p host vm r).vm ∧
    (kvm__arch_delete_ram (kvm__arch_init p host vm r).vm).out = .returned () := by
  have hw : wadd (min r p.ARM_MAX_MEMORY) SZ_2M = min r p.ARM_MAX_MEMORY + SZ_2M := by
    simp only [wadd, SZ_2M] at hmax ⊢
    omega
  have hsz : (kvm__arch_init p host vm r).vm.arch.ram_alloc_size =
      (kvm__arch_init p host vm r).vm.ram_size + SZ_2M := by
    rw [arch_init_unfold]
    split_ifs <;> simp [vm_after_align, vm_after_mmap, hw]
  have hst : (kvm__arch_init p host vm r).vm.arch.ram_alloc_start =
      host.mmap_anon_or_hugetlbfs (min r p.ARM_MAX_MEMORY + SZ_2M) := by
    rw [arch_init_unfold]
    split_ifs <;> simp [vm_after_align, vm_after_mmap, hw]
  refine ⟨rfl, hst, hsz, ?_, rfl, rfl⟩
  unfold kvm__arch_delete_ram
  rw [hsz]
  simp [SZ_2M]

/-- C12 at a sample input: a guest of 256 MiB mapped at `0x7f0000100000` is released by
`munmap(0x7f0000100000, 256 MiB + 2 MiB)`. -/
theorem delete_ram_unmaps_allocation_witness :
    (kvm__arch_delete_ram (kvm__arch_init sample_params sample_host zero_vm 0x10000000).vm).trace =
      [Event.munmap 0x7f0000100000 0x10200000] ∧
    (kvm__arch_delete_ram (kvm__arch_init sample_params sample_host zero_vm 0x10000000).vm).trace ≠
      [Event.munmap (kvm__arch_init sample_params sample_host zero_vm 0x10000000).vm.ram_start
        (kvm__arch_init sample_params sample_host zero_vm 0x10000000).vm.ram_size] :=
  have h := delete_ram_unmaps_allocation sample_params sample_host zero_vm 0x10000000
    (by decide)
  ⟨h.1, h.2.2.2.1⟩

/-! ## Alignment and room of the placements -/

/-- C13, as stated, fails: with 256 MiB of RAM, a kernel of 8 MiB and a ramdisk of 1001
bytes the call returns true with `dtb_guest_start = 0x8FE00000` and
`initrd_guest_start = 0x8FDFFC14`, while `dtb_guest_start - (S + 4)` rounded down to a
multiple of 4 is `0x8FDFFC10`. -/
theorem initrd_aligned_down_counterexample :
    (kvm__arch_load_kernel_image sample_params (sample_vm 0x10000000)
      (sample_file 0x800000) (some (sample_file 1001))).out = .returned true ∧
    (kvm__arch_load_kernel_image sample_params (sample_vm 0x10000000)
      (sample_file 0x800000) (some (sample_file 1001))).vm.arch.dtb_guest_start = 0x8FE00000 ∧
    (kvm__arch_load_kernel_image sample_params (sample_vm 0x10000000)
      (sample_file 0x800000) (some (sample_file 1001))).vm.arch.initrd_guest_start =
      0x8FDFFC14 ∧
    (0x8FE00000 - (1001 + INITRD_ALIGN)) / INITRD_ALIGN * INITRD_ALIGN = 0x8FDFFC10 := by
  refine ⟨rfl, rfl, rfl, ?_⟩
  decide

/-- C13, amended: when a ramdisk with `st_size = S` is supplied and the call returns,
`initrd_guest_start` is `dtb_guest_start - (S + 4)` rounded UP to a multiple of 4: it is a
multiple of 4, not below that address, less than 4 above it, and equal to `ALIGN` of it.
No host address computed on the way is assumed to wrap around. -/
theorem initrd_aligned_up (p : ArchParams) (vm : kvm) (fk initrd : File) (S : Nat)
    (hR : vm.ram_start + vm.ram_size < 2 ^ 64)
    (hB : vm.arch.memory_guest_start + vm.ram_size < 2 ^ 64)
    (hF : p.FDT_MAX_SIZE + FDT_ALIGN < vm.ram_start)
    (hK : vm.ram_start + p.ARM_KERN_OFFSET + fk.size < 2 ^ 64)
    (hst : initrd.st_size = some S)
    (hS : S + INITRD_ALIGN ≤ vm.ram_start)
    (hok : (kvm__arch_load_kernel_image p vm fk (some initrd)).out = .returned true) :
    (kvm__arch_load_kernel_image p vm fk (some initrd)).vm.arch.initrd_guest_start %
      INITRD_ALIGN = 0 ∧
    (kvm__arch_load_kernel_image p vm fk (some initrd)).vm.arch.dtb_guest_start -
        (S + INITRD_ALIGN) ≤
      (kvm__arch_load_kernel_image p vm fk (some initrd)).vm.arch.initrd_guest_start ∧
    (kvm__arch_load_kernel_image p vm fk (some initrd)).vm.arch.initrd_guest_start <
      (kvm__arch_load_kernel_image p vm fk (some initrd)).vm.arch.dtb_guest_start -
        (S + INITRD_ALIGN) + INITRD_ALIGN ∧
    (kvm__arch_load_kernel_image p vm fk (some initrd)).vm.arch.initrd_guest_start =
      ALIGN ((kvm__arch_load_kernel_image p vm fk (some initrd)).vm.arch.dtb_guest_start -
        (S + INITRD_ALIGN)) INITRD_ALIGN := by
  have hL : min vm.ram_size SZ_256M ≤ vm.ram_size := Nat.min_le_left _ _
  obtain ⟨he, hs, hfdt, -, hdtb, -, hird⟩ :=
    load_returned_inv p vm fk (some initrd) true hok
  obtain ⟨S', hst', hrd, hie, his, hig, hisz⟩ := hird initrd rfl
  rw [hst] at hst'
  cases hst'
  have hend := kernel_end_eq p vm fk.size hK
  have hstep := fdt_step p vm (by omega) (by omega) hF
  have hin := initrd_step p vm S (by omega) (by omega) hF (by omega)
  have hal := ALIGN_4_cases (fdt_guest_addr p vm - (S + INITRD_ALIGN)) (by omega)
  rw [hdtb, hig]
  simp only [INITRD_ALIGN, FDT_ALIGN, SZ_2M] at hstep hin hal hF hS ⊢
  refine ⟨by omega, by omega, by omega, ?_⟩
  omega

/-- C13, amended, at the sample input: a ramdisk of 1001 bytes below a device tree at
`0x8FE00000` starts at a multiple of 4, the `ALIGN` of `0x8FE00000 - 1005`. -/
theorem initrd_aligned_up_witness :
    (kvm__arch_load_kernel_image sample_params (sample_vm 0x10000000)
      (sample_file 0x800000) (some (sample_file 1001))).vm.arch.initrd_guest_start %
      INITRD_ALIGN = 0 ∧
    (kvm__arch_load_kernel_image sample_params (sample_vm 0x10000000)
      (sample_file 0x800000) (some (sample_file 1001))).vm.arch.initrd_guest_start =
      ALIGN ((kvm__arch_load_kernel_image sample_params (sample_vm 0x10000000)
        (sample_file 0x800000) (some (sample_file 1001))).vm.arch.dtb_guest_start -
        (1001 + INITRD_ALIGN)) INITRD_ALIGN :=
  have h := initrd_aligned_up sample_params (sample_vm 0x10000000) (sample_file 0x800000)
    (sample_file 1001) 1001 (by decide) (by decide) (by decide) (by decide) rfl (by decide) rfl
  ⟨h.1, h.2.2.2⟩

/-- C15: on every call that returns, `dtb_guest_start + FDT_MAX_SIZE` does not exceed the
guest address of the original `limit`, `guest_phys_base + min(ram_size, 256 MiB) - 1`:
a device tree of `FDT_MAX_SIZE` bytes written at `dtb_guest_start` stays inside the lowmem
window.  No host address computed on the way is assumed to wrap around. -/
theorem fdt_room_below_limit (p : ArchParams) (vm : kvm) (fk : File) (fi : Option File)
    (hR : vm.ram_start + vm.ram_size < 2 ^ 64)
    (hB : vm.arch.memory_guest_start + vm.ram_size < 2 ^ 64)
    (hF : p.FDT_MAX_SIZE + FDT_ALIGN < vm.ram_start)
    (hK : vm.ram_start + p.ARM_KERN_OFFSET + fk.size < 2 ^ 64)
    (hok : (kvm__arch_load_kernel_image p vm fk fi).out = .returned true) :
    (kvm__arch_load_kernel_image p vm fk fi).vm.arch.dtb_guest_start + p.FDT_MAX_SIZE ≤
      vm.arch.memory_guest_start + min vm.ram_size SZ_256M - 1 := by
  have hL : min vm.ram_size SZ_256M ≤ vm.ram_size := Nat.min_le_left _ _
  obtain ⟨he, hs, hfdt, -, hdtb, -, -⟩ := load_returned_inv p vm fk fi true hok
  have hend := kernel_end_eq p vm fk.size hK
  have hstep := fdt_step p vm (by omega) (by omega) hF
  rw [hdtb]
  omega

/-- C15 at the sample input: 256 MiB of RAM, a kernel of 8 MiB, no ramdisk. -/
theorem fdt_room_below_limit_witness :
    (kvm__arch_load_kernel_image sample_params (sample_vm 0x10000000)
      (sample_file 0x800000) none).vm.arch.dtb_guest_start + sample_params.FDT_MAX_SIZE ≤
      (sample_vm 0x10000000).arch.memory_guest_start +
        min (sample_vm 0x10000000).ram_size SZ_256M - 1 :=
  fdt_room_below_limit sample_params (sample_vm 0x10000000) (sample_file 0x800000) none
    (by decide) (by decide) (by decide) (by decide) rfl

/-- `ALIGN` to 2 MiB always gives a multiple of 2 MiB. -/
theorem ALIGN_2M_mod (x : Nat) : ALIGN x 2097152 % 2097152 = 0 := by
  rw [ALIGN_2M]
  omega

/-- `ALIGN` to 4 always gives a multiple of 4. -/
theorem ALIGN_4_mod (x : Nat) : ALIGN x 4 % 4 = 0 := by
  rw [ALIGN_4]
  omega

/-- C18: on every call that returns, `dtb_guest_start` is a multiple of 2 MiB
(`FDT_ALIGN`), and when a ramdisk was supplied `initrd_guest_start` is a multiple of 4
(`INITRD_ALIGN`), for every RAM size, host base, guest base and blob sizes. -/
theorem placements_aligned (p : ArchParams) (vm : kvm) (fk : File) (fi : Option File)
    (hok : (kvm__arch_load_kernel_image p vm fk fi).out = .returned true) :
    (kvm__arch_load_kernel_image p vm fk fi).vm.arch.dtb_guest_start % FDT_ALIGN = 0 ∧
    (fi ≠ none →
      (kvm__arch_load_kernel_image p vm fk fi).vm.arch.initrd_guest_start % INITRD_ALIGN = 0) := by
  obtain ⟨-, -, -, -, hdtb, -, hird⟩ := load_returned_inv p vm fk fi true hok
  constructor
  · rw [hdtb]
    exact ALIGN_2M_mod _
  · intro hfi
    cases hfi' : fi with
    | none => exact absurd hfi' hfi
    | some initrd =>
      obtain ⟨S, -, -, -, -, hig, -⟩ := hird initrd hfi'
      rw [← hfi', hig]
      exact ALIGN_4_mod _

/-- C18 at a sample input: 256 MiB of RAM, a kernel of 8 MiB and a ramdisk of 1001 bytes. -/
theorem placements_aligned_witness :
    (kvm__arch_load_kernel_image sample_params (sample_vm 0x10000000)
      (sample_file 0x800000) (some (sample_file 1001))).vm.arch.dtb_guest_start %
      FDT_ALIGN = 0 ∧
    (kvm__arch_load_kernel_image sample_params (sample_vm 0x10000000)
      (sample_file 0x800000) (some (sample_file 1001))).vm.arch.initrd_guest_start %
      INITRD_ALIGN = 0 :=
  have h := placements_aligned sample_params (sample_vm 0x10000000) (sample_file 0x800000)
    (some (sample_file 1001)) rfl
  ⟨h.1, h.2 (by simp)⟩

/-! ## Calls without a ramdisk -/

/-- C17: when no ramdisk is supplied, `initrd_guest_start` keeps the value it had before
the call on every path, so it is 0 afterwards exactly when it was 0 before; no `fstat` and
no read of a ramdisk is among the calls made; and when the call returns, `initrd_size`
is 0. -/
theorem no_initrd_keeps_start (p : ArchParams) (vm : kvm) (fk : File) :
    (kvm__arch_load_kernel_image p vm fk none).vm.arch.initrd_guest_start =
      vm.arch.initrd_guest_start ∧
    ((kvm__arch_load_kernel_image p vm fk none).vm.arch.initrd_guest_start = 0 ↔
      vm.arch.initrd_guest_start = 0) ∧
    (kvm__arch_load_kernel_image p vm fk none).trace = [kernel_read_event p vm] ∧
    ((kvm__arch_load_kernel_image p vm fk none).out = .returned true →
      (kvm__arch_load_kernel_image p vm fk none).vm.arch.initrd_size = 0) := by
  have h := load_path p vm fk none
  generalize kvm__arch_load_kernel_image p vm fk none = r at h ⊢
  cases h with
  | kernel_read_error e he => exact ⟨rfl, Iff.rfl, rfl, fun hc => by simp at hc⟩
  | kernel_too_big he hs => exact ⟨rfl, Iff.rfl, rfl, fun hc => by simp at hc⟩
  | fdt_overlaps he hs hfdt => exact ⟨rfl, Iff.rfl, rfl, fun hc => by simp at hc⟩
  | without_initrd he hs hfdt hfi => exact ⟨rfl, Iff.rfl, rfl, fun _ => rfl⟩
  | fstat_fails he hs hfdt initrd hfi hst => cases hfi
  | initrd_overlaps he hs hfdt initrd hfi st_size hst hrd => cases hfi
  | initrd_read_error he hs hfdt initrd hfi st_size hst hrd e hie => cases hfi
  | initrd_too_big he hs hfdt initrd hfi st_size hst hrd hie his => cases hfi
  | with_initrd he hs hfdt initrd hfi st_size hst hrd hie his => cases hfi

/-- C17 at a sample input: a `struct kvm` that still holds the ramdisk address
`0x8FDFFC14` and size 1001 of an earlier call keeps the address and gets size 0. -/
theorem no_initrd_keeps_start_witness :
    (kvm__arch_load_kernel_image sample_params sample_vm_stale
      (sample_file 0x800000) none).vm.arch.initrd_guest_start = 0x8FDFFC14 ∧
    (kvm__arch_load_kernel_image sample_params sample_vm_stale
      (sample_file 0x800000) none).vm.arch.initrd_size = 0 :=
  have h := no_initrd_keeps_start sample_params sample_vm_stale (sample_file 0x800000)
  ⟨h.1, h.2.2.2 rfl⟩

/-! ## Failing reads -/

/-- C14: when the read of the kernel fails, the call ends in "kernel image too big to
contain in guest memory." exactly when the read left `errno = ENOMEM` and in
`die_perror("kernel read")` exactly when it left any other `errno`; when the read of the
ramdisk is reached and fails, the call ends in "initrd too big to contain in guest
memory." exactly when `errno = ENOMEM` and in `die_perror("initrd read")` otherwise.
In none of these cases does the call return. -/
theorem read_failure_classification (p : ArchParams) (vm : kvm) (fk : File)
    (fi : Option File) :
    ((read_file fk (kernel_max p vm)).1 < 0 →
      ((kvm__arch_load_kernel_image p vm fk fi).out = .die .kernel_too_big ↔
        (read_file fk (kernel_max p vm)).2 = ENOMEM) ∧
      ((kvm__arch_load_kernel_image p vm fk fi).out = .die .perror_kernel_read ↔
        (read_file fk (kernel_max p vm)).2 ≠ ENOMEM) ∧
      (∀ b, (kvm__arch_load_kernel_image p vm fk fi).out ≠ .returned b)) ∧
    (∀ initrd S, fi = some initrd → initrd.st_size = some S →
      fk.read_error = none → fk.size ≤ kernel_max p vm →
      kernel_end p vm fk.size ≤ fdt_pos p vm →
      kernel_end p vm fk.size ≤ initrd_pos p vm S →
      (read_file initrd (initrd_max p vm S)).1 = -1 →
      ((kvm__arch_load_kernel_image p vm fk fi).out = .die .initrd_too_big ↔
        (read_file initrd (initrd_max p vm S)).2 = ENOMEM) ∧
      ((kvm__arch_load_kernel_image p vm fk fi).out = .die .perror_initrd_read ↔
        (read_file initrd (initrd_max p vm S)).2 ≠ ENOMEM) ∧
      (∀ b, (kvm__arch_load_kernel_image p vm fk fi).out ≠ .returned b)) := by
  constructor
  · intro hfail
    rcases read_file_cases fk (kernel_max p vm) with ⟨he, hs, hr⟩ | ⟨he, hs, hr⟩ | ⟨e, he, hr⟩
    · rw [hr] at hfail
      simp only at hfail
      omega
    · rw [load_kernel_too_big p vm fk fi he hs, hr]
      simp
    · rw [load_kernel_read_error p vm fk fi e he, hr]
      by_cases h : e = ENOMEM <;> simp [h]
  · intro initrd S hfi hst he hs hfdt hrd hfail
    subst hfi
    rcases read_file_cases initrd (initrd_max p vm S) with
      ⟨hie, his, hr⟩ | ⟨hie, his, hr⟩ | ⟨e, hie, hr⟩
    · rw [hr] at hfail
      simp only at hfail
      omega
    · rw [load_initrd_too_big p vm fk initrd S he hs hfdt hst hrd hie his, hr]
      simp
    · rw [load_initrd_read_error p vm fk initrd S e he hs hfdt hst hrd hie, hr]
      by_cases h : e = ENOMEM <;> simp [h]

/-- C14 at sample inputs with 256 MiB of RAM: a kernel whose reads fail with `errno = 5`
ends in `die_perror("kernel read")`; behind a kernel of 8 MiB, a ramdisk of 1001 bytes
whose reads fail with `errno = 12` ends in "initrd too big to contain in guest memory.". -/
theorem read_failure_classification_witness :
    ((kvm__arch_load_kernel_image sample_params (sample_vm 0x10000000)
        (sample_unreadable_file 0x800000 5) none).out = .die .perror_kernel_read ↔
      (read_file (sample_unreadable_file 0x800000 5)
        (kernel_max sample_params (sample_vm 0x10000000))).2 ≠ ENOMEM) ∧
    ((kvm__arch_load_kernel_image sample_params (sample_vm 0x10000000)
        (sample_file 0x800000) (some (sample_unreadable_file 1001 12))).out =
        .die .initrd_too_big ↔
      (read_file (sample_unreadable_file 1001 12)
        (initrd_max sample_params (sample_vm 0x10000000) 1001)).2 = ENOMEM) :=
  ⟨((read_failure_classification sample_params (sample_vm 0x10000000)
      (sample_unreadable_file 0x800000 5) none).1 (by decide)).2.1,
    ((read_failure_classification sample_params (sample_vm 0x10000000)
      (sample_file 0x800000) (some (sample_unreadable_file 1001 12))).2
      (sample_unreadable_file 1001 12) 1001 rfl rfl rfl (by decide) (by decide) (by decide)
      (by decide)).1⟩

/-! ## Independence of the host address -/

/-- A backward placement step seen from two host bases `R` and `R'`: when the host
addresses `T` and `T'` it starts from have the same offset from their base, the guest
address that comes out is the same and the host addresses that come out again have the
same offset from their base. -/
theorem place_step_shift (R R' B T T' res a M : Nat)
    (hR : R < 2 ^ 64) (hR' : R' < 2 ^ 64) (hB : B < 2 ^ 64)
    (hT : T < 2 ^ 64) (hT' : T' < 2 ^ 64)
    (ha : 0 < a) (hres : a ≤ res) (hresT : res ≤ T) (hresT' : res ≤ T')
    (hTM : T < R + M) (hBM : B + M ≤ 2 ^ 64) (hTT : T + R' = T' + R)
    (hal : ∀ x, x < 2 ^ 64 → ALIGN x a < 2 ^ 64 ∧
      ((x + (a - 1) < 2 ^ 64 ∧ x ≤ ALIGN x a ∧ ALIGN x a ≤ x + (a - 1)) ∨
        (2 ^ 64 ≤ x + (a - 1) ∧ ALIGN x a = 0))) :
    ALIGN (wadd B (wsub (wsub T' res) R')) a = ALIGN (wadd B (wsub (wsub T res) R)) a ∧
    wadd R' (wsub (ALIGN (wadd B (wsub (wsub T' res) R')) a) B) + R =
      wadd R (wsub (ALIGN (wadd B (wsub (wsub T res) R)) a) B) + R' := by
  have hres' : res < 2 ^ 64 := by omega
  have hin : wsub (wsub T' res) R' = wsub (wsub T res) R := by
    obtain ⟨q1, q2⟩ := wsub_cases T res hT hres'
    obtain ⟨q1', q2'⟩ := wsub_cases T' res hT' hres'
    generalize wsub T res = q at *
    generalize wsub T' res = q' at *
    obtain ⟨d1, d2⟩ := wsub_cases q R q1 hR
    obtain ⟨d1', d2'⟩ := wsub_cases q' R' q1' hR'
    generalize wsub q R = d at *
    generalize wsub q' R' = d' at *
    clear hal
    omega
  have s1 := place_step R B T res a M hR hB hT ha hres hresT hTM hBM hal
  have s2 := place_step R' B T' res a M hR' hB hT' ha hres hresT' (by omega) hBM hal
  rw [hin] at s2 ⊢
  refine ⟨rfl, ?_⟩
  have G1 := (hal (wadd B (wsub (wsub T res) R)) (by unfold wadd; omega)).1
  generalize ALIGN (wadd B (wsub (wsub T res) R)) a = G at *
  obtain ⟨e1, -⟩ := wsub_cases G B G1 hB
  generalize wsub G B = e at *
  obtain ⟨-, P2⟩ := wadd_cases R e hR e1
  obtain ⟨-, P2'⟩ := wadd_cases R' e hR' e1
  generalize wadd R e = P at *
  generalize wadd R' e = P' at *
  clear hal
  omega

/-- The kernel step and the device-tree step seen from two host bases: for two
`struct kvm` with the same `ram_size` and `memory_guest_start`, the bound of the kernel
read, the guest address of the kernel and the guest address of the device tree are the
same, and the end of the kernel and the host address of the device tree have the same
offset from `ram_start`. -/
theorem shift_kernel_fdt (p : ArchParams) (vm vm' : kvm) (K : Nat)
    (hsz : vm'.ram_size = vm.ram_size)
    (hbase : vm'.arch.memory_guest_start = vm.arch.memory_guest_start)
    (hR : vm.ram_start + vm.ram_size < 2 ^ 64) (hR' : vm'.ram_start + vm'.ram_size < 2 ^ 64)
    (hB : vm.arch.memory_guest_start + vm.ram_size < 2 ^ 64)
    (hF : p.FDT_MAX_SIZE + FDT_ALIGN < vm.ram_start)
    (hF' : p.FDT_MAX_SIZE + FDT_ALIGN < vm'.ram_start)
    (hK : vm.ram_start + p.ARM_KERN_OFFSET + K < 2 ^ 64)
    (hK' : vm'.ram_start + p.ARM_KERN_OFFSET + K < 2 ^ 64) :
    kernel_max p vm' = kernel_max p vm ∧
    host_to_guest_flat vm' (kernel_pos p vm') = host_to_guest_flat vm (kernel_pos p vm) ∧
    fdt_guest_addr p vm' = fdt_guest_addr p vm ∧
    fdt_pos p vm' + vm.ram_start = fdt_pos p vm + vm'.ram_start ∧
    kernel_end p vm' K + vm.ram_start = kernel_end p vm K + vm'.ram_start := by
  have hL : min vm.ram_size SZ_256M ≤ vm.ram_size := Nat.min_le_left _ _
  have hlim := lowmem_limit_eq vm (by omega) (by omega)
  have hlim' := lowmem_limit_eq vm' (by omega) (by rw [hsz]; omega)
  have hpos := kernel_pos_eq p vm (by omega)
  have hpos' := kernel_pos_eq p vm' (by omega)
  have hend := kernel_end_eq p vm K hK
  have hend' := kernel_end_eq p vm' K hK'
  rw [hsz] at hlim'
  refine ⟨?_, ?_, ?_, ?_, by omega⟩
  · obtain ⟨-, m⟩ := wsub_cases (lowmem_limit vm) (kernel_pos p vm) (by omega) (by omega)
    obtain ⟨-, m'⟩ := wsub_cases (lowmem_limit vm') (kernel_pos p vm') (by omega) (by omega)
    unfold kernel_max
    omega
  · have e : wsub (kernel_pos p vm) vm.ram_start = p.ARM_KERN_OFFSET := by
      obtain ⟨-, m⟩ := wsub_cases (kernel_pos p vm) vm.ram_start (by omega) (by omega)
      omega
    have e' : wsub (kernel_pos p vm') vm'.ram_start = p.ARM_KERN_OFFSET := by
      obtain ⟨-, m⟩ := wsub_cases (kernel_pos p vm') vm'.ram_start (by omega) (by omega)
      omega
    unfold host_to_guest_flat
    rw [e, e', hbase]
  · have hst := place_step_shift vm.ram_start vm'.ram_start vm.arch.memory_guest_start
      (lowmem_limit vm) (lowmem_limit vm') (p.FDT_MAX_SIZE + FDT_ALIGN) FDT_ALIGN
      (min vm.ram_size SZ_256M)
      (by omega) (by omega) (by omega) (by omega) (by omega) (by decide) (by omega)
      (by omega) (by omega) (by omega) (by omega) (by omega)
      (fun x hx => by
        have := ALIGN_2M_cases x hx
        simp only [FDT_ALIGN, SZ_2M]
        omega)
    unfold fdt_guest_addr host_to_guest_flat
    rw [hbase]
    exact hst.1
  · have hst := place_step_shift vm.ram_start vm'.ram_start vm.arch.memory_guest_start
      (lowmem_limit vm) (lowmem_limit vm') (p.FDT_MAX_SIZE + FDT_ALIGN) FDT_ALIGN
      (min vm.ram_size SZ_256M)
      (by omega) (by omega) (by omega) (by omega) (by omega) (by decide) (by omega)
      (by omega) (by omega) (by omega) (by omega) (by omega)
      (fun x hx => by
        have := ALIGN_2M_cases x hx
        simp only [FDT_ALIGN, SZ_2M]
        omega)
    unfold fdt_pos fdt_guest_addr guest_flat_to_host host_to_guest_flat
    rw [hbase]
    exact hst.2

/-- The ramdisk step seen from two host bases: when the device tree has the same offset
from `ram_start` in both, the guest address of the ramdisk and the bound of its read are
the same, and its host address has the same offset from `ram_start`. -/
theorem shift_initrd (p : ArchParams) (vm vm' : kvm) (S : Nat)
    (hsz : vm'.ram_size = vm.ram_size)
    (hbase : vm'.arch.memory_guest_start = vm.arch.memory_guest_start)
    (hR : vm.ram_start + vm.ram_size < 2 ^ 64) (hR' : vm'.ram_start + vm'.ram_size < 2 ^ 64)
    (hB : vm.arch.memory_guest_start + vm.ram_size < 2 ^ 64)
    (hF : p.FDT_MAX_SIZE + FDT_ALIGN < vm.ram_start)
    (hF' : p.FDT_MAX_SIZE + FDT_ALIGN < vm'.ram_start)
    (hS : S + INITRD_ALIGN ≤ fdt_pos p vm) (hS' : S + INITRD_ALIGN ≤ fdt_pos p vm')
    (hP : fdt_pos p vm' + vm.ram_start = fdt_pos p vm + vm'.ram_start) :
    initrd_guest_addr p vm' S = initrd_guest_addr p vm S ∧
    initrd_pos p vm' S + vm.ram_start = initrd_pos p vm S + vm'.ram_start ∧
    initrd_max p vm' S = initrd_max p vm S := by
  have hL : min vm.ram_size SZ_256M ≤ vm.ram_size := Nat.min_le_left _ _
  have hfdt := fdt_step p vm (by omega) (by omega) hF
  have hfdt' := fdt_step p vm' (by rw [hsz]; omega) (by rw [hsz, hbase]; omega) hF'
  have hin := initrd_step p vm S (by omega) (by omega) hF hS
  have hin' := initrd_step p vm' S (by rw [hsz]; omega) (by rw [hsz, hbase]; omega) hF' hS'
  rw [hsz] at hfdt'
  have hst := place_step_shift vm.ram_start vm'.ram_start vm.arch.memory_guest_start
    (fdt_pos p vm) (fdt_pos p vm') (S + INITRD_ALIGN) INITRD_ALIGN
    (min vm.ram_size SZ_256M)
    (by omega) (by omega) (by omega) (by omega) (by omega) (by decide) (by omega)
    (by omega) (by omega) (by omega) (by omega) (by omega)
    (fun x hx => by
      have := ALIGN_4_cases x hx
      simp only [INITRD_ALIGN]
      omega)
  have hg : initrd_guest_addr p vm' S = initrd_guest_addr p vm S := by
    unfold initrd_guest_addr host_to_guest_flat
    rw [hbase]
    exact hst.1
  have hp : initrd_pos p vm' S + vm.ram_start = initrd_pos p vm S + vm'.ram_start := by
    unfold initrd_pos initrd_guest_addr guest_flat_to_host host_to_guest_flat
    rw [hbase]
    exact hst.2
  refine ⟨hg, hp, ?_⟩
  omega

/-- C16: two calls on `struct kvm` values that agree in `ram_size`, `memory_guest_start`
and the earlier values of `dtb_guest_start`, `initrd_guest_start` and `initrd_size` (which
a call that stops early leaves as they were), with the same kernel and ramdisk, but with
any two host addresses `ram_start`, end the same way (the same return or the same error)
and leave the same `kern_guest_start`, `dtb_guest_start`, `initrd_guest_start` and
`initrd_size`, provided that in neither call a host address computed on the way wraps
around. -/
theorem load_independent_of_ram_start (p : ArchParams) (vm vm' : kvm) (fk : File)
    (fi : Option File)
    (hsz : vm'.ram_size = vm.ram_size)
    (hbase : vm'.arch.memory_guest_start = vm.arch.memory_guest_start)
    (hdtb : vm'.arch.dtb_guest_start = vm.arch.dtb_guest_start)
    (hird : vm'.arch.initrd_guest_start = vm.arch.initrd_guest_start)
    (hirs : vm'.arch.initrd_size = vm.arch.initrd_size)
    (hR : vm.ram_start + vm.ram_size < 2 ^ 64) (hR' : vm'.ram_start + vm'.ram_size < 2 ^ 64)
    (hB : vm.arch.memory_guest_start + vm.ram_size < 2 ^ 64)
    (hF : p.FDT_MAX_SIZE + FDT_ALIGN < vm.ram_start)
    (hF' : p.FDT_MAX_SIZE + FDT_ALIGN < vm'.ram_start)
    (hK : vm.ram_start + p.ARM_KERN_OFFSET + fk.size < 2 ^ 64)
    (hK' : vm'.ram_start + p.ARM_KERN_OFFSET + fk.size < 2 ^ 64)
    (hS : ∀ initrd S, fi = some initrd → initrd.st_size = some S →
      S + INITRD_ALIGN ≤ vm.ram_start ∧ S + INITRD_ALIGN ≤ vm'.ram_start) :
    (kvm__arch_load_kernel_image p vm' fk fi).out =
      (kvm__arch_load_kernel_image p vm fk fi).out ∧
    (kvm__arch_load_kernel_image p vm' fk fi).vm.arch.kern_guest_start =
      (kvm__arch_load_kernel_image p vm fk fi).vm.arch.kern_guest_start ∧
    (kvm__arch_load_kernel_image p vm' fk fi).vm.arch.dtb_guest_start =
      (kvm__arch_load_kernel_image p vm fk fi).vm.arch.dtb_guest_start ∧
    (kvm__arch_load_kernel_image p vm' fk fi).vm.arch.initrd_guest_start =
      (kvm__arch_load_kernel_image p vm fk fi).vm.arch.initrd_guest_start ∧
    (kvm__arch_load_kernel_image p vm' fk fi).vm.arch.initrd_size =
      (kvm__arch_load_kernel_image p vm fk fi).vm.arch.initrd_size := by
  obtain ⟨tmax, tkern, tG, tP, tE⟩ :=
    shift_kernel_fdt p vm vm' fk.size hsz hbase hR hR' hB hF hF' hK hK'
  have hend := kernel_end_eq p vm fk.size hK
  have hend' := kernel_end_eq p vm' fk.size hK'
  have h := load_path p vm fk fi
  generalize kvm__arch_load_kernel_image p vm fk fi = r at h ⊢
  cases h with
  | kernel_read_error e he =>
    rw [load_kernel_read_error p vm' fk fi e he]
    exact ⟨rfl, tkern, hdtb, hird, hirs⟩
  | kernel_too_big he hs =>
    rw [load_kernel_too_big p vm' fk fi he (by omega)]
    exact ⟨rfl, tkern, hdtb, hird, hirs⟩
  | fdt_overlaps he hs hfdt =>
    rw [load_fdt_overlaps p vm' fk fi he (by omega) (by omega)]
    exact ⟨rfl, tkern, hdtb, hird, hirs⟩
  | without_initrd he hs hfdt hfi =>
    subst hfi
    rw [load_without_initrd p vm' fk he (by omega) (by omega)]
    exact ⟨rfl, tkern, tG, hird, rfl⟩
  | fstat_fails he hs hfdt initrd hfi hst =>
    subst hfi
    rw [load_fstat_fails p vm' fk initrd he (by omega) (by omega) hst]
    exact ⟨rfl, tkern, tG, hird, hirs⟩
  | initrd_overlaps he hs hfdt initrd hfi S hst hrd =>
    subst hfi
    obtain ⟨hS1, hS2⟩ := hS initrd S rfl hst
    obtain ⟨-, tPi, -⟩ := shift_initrd p vm vm' S hsz hbase hR hR' hB hF hF'
      (by omega) (by omega) tP
    rw [load_initrd_overlaps p vm' fk initrd S he (by omega) (by omega) hst (by omega)]
    exact ⟨rfl, tkern, tG, hird, hirs⟩
  | initrd_read_error he hs hfdt initrd hfi S hst hrd e hie =>
    subst hfi
    obtain ⟨hS1, hS2⟩ := hS initrd S rfl hst
    obtain ⟨-, tPi, -⟩ := shift_initrd p vm vm' S hsz hbase hR hR' hB hF hF'
      (by omega) (by omega) tP
    rw [load_initrd_read_error p vm' fk initrd S e he (by omega) (by omega) hst (by omega) hie]
    exact ⟨rfl, tkern, tG, hird, hirs⟩
  | initrd_too_big he hs hfdt initrd hfi S hst hrd hie his =>
    subst hfi
    obtain ⟨hS1, hS2⟩ := hS initrd S rfl hst
    obtain ⟨-, tPi, tmi⟩ := shift_initrd p vm vm' S hsz hbase hR hR' hB hF hF'
      (by omega) (by omega) tP
    rw [load_initrd_too_big p vm' fk initrd S he (by omega) (by omega) hst (by omega) hie
      (by omega)]
    exact ⟨rfl, tkern, tG, hird, hirs⟩
  | with_initrd he hs hfdt initrd hfi S hst hrd hie his =>
    subst hfi
    obtain ⟨hS1, hS2⟩ := hS initrd S rfl hst
    obtain ⟨tGi, tPi, tmi⟩ := shift_initrd p vm vm' S hsz hbase hR hR' hB hF hF'
      (by omega) (by omega) tP
    rw [load_with_initrd p vm' fk initrd S he (by omega) (by omega) hst (by omega) hie
      (by omega)]
    exact ⟨rfl, tkern, tG, tGi, rfl⟩

/-- C16 at a sample input: 256 MiB of RAM mapped at `0x7f0000200000` and at
`0x7e0000400000`, a kernel of 8 MiB and a ramdisk of 1001 bytes. -/
theorem load_independent_of_ram_start_witness :
    (kvm__arch_load_kernel_image sample_params sample_vm_moved (sample_file 0x800000)
        (some (sample_file 1001))).out =
      (kvm__arch_load_kernel_image sample_params (sample_vm 0x10000000) (sample_file 0x800000)
        (some (sample_file 1001))).out ∧
    (kvm__arch_load_kernel_image sample_params sample_vm_moved (sample_file 0x800000)
        (some (sample_file 1001))).vm.arch.kern_guest_start =
      (kvm__arch_load_kernel_image sample_params (sample_vm 0x10000000) (sample_file 0x800000)
        (some (sample_file 1001))).vm.arch.kern_guest_start ∧
    (kvm__arch_load_kernel_image sample_params sample_vm_moved (sample_file 0x800000)
        (some (sample_file 1001))).vm.arch.dtb_guest_start =
      (kvm__arch_load_kernel_image sample_params (sample_vm 0x10000000) (sample_file 0x800000)
        (some (sample_file 1001))).vm.arch.dtb_guest_start ∧
    (kvm__arch_load_kernel_image sample_params sample_vm_moved (sample_file 0x800000)
        (some (sample_file 1001))).vm.arch.initrd_guest_start =
      (kvm__arch_load_kernel_image sample_params (sample_vm 0x10000000) (sample_file 0x800000)
        (some (sample_file 1001))).vm.arch.initrd_guest_start ∧
    (kvm__arch_load_kernel_image sample_params sample_vm_moved (sample_file 0x800000)
        (some (sample_file 1001))).vm.arch.initrd_size =
      (kvm__arch_load_kernel_image sample_params (sample_vm 0x10000000) (sample_file 0x800000)
        (some (sample_file 1001))).vm.arch.initrd_size :=
  load_independent_of_ram_start sample_params (sample_vm 0x10000000) sample_vm_moved
    (sample_file 0x800000) (some (sample_file 1001)) rfl rfl rfl rfl rfl
    (by decide) (by decide) (by decide) (by decide) (by decide) (by decide) (by decide)
    (fun initrd S hfi hst => by cases hfi; cases hst; decide)

end KvmArm
